import Mathlib

/-!
Verification development for the webblog Touhou mini-game simulation core.

The repository contains three near-duplicate game variants and a shared
boss-pattern module:

  * part_000  : single-boss variant (1.2 s invulnerability window),
  * part_001  : three-stage boss-succession variant (2 s window, bomb on hit),
  * touhou-game.ts : scrolling-shooter variant (fodder enemies, orphan pool,
    bomb-style bullet clearing on hit, no invulnerability window),
  * part_002 (boss-patterns) : the pattern library.

The embedding below models the simulation-relevant methods of each variant
over exact rational arithmetic.  Browser facilities (canvas drawing, DOM,
audio, sprite images) are outputs or external handles and are not part of
the simulation state.  Wall-clock reads (Date.now / performance.now) inside
one frame are modelled by a single rational parameter given to the frame;
Math.sin / Math.cos / Math.atan2 / Math.sqrt / Math.PI / Math.random are
modelled by an explicit environment of rational-valued functions, with the
calls of Math.random counted by a cursor threaded through the state.
-/

/-- Truncation toward zero, the rounding used by the remainder operator of
JS numbers. -/
def ratTrunc (q : ℚ) : ℤ :=
  if 0 ≤ q then ⌊q⌋ else -⌊-q⌋

/-- The remainder operator of JS numbers: sign of the dividend, truncated
quotient.  (For a zero divisor JS yields NaN; no call site divides by 0.) -/
def jsMod (a n : ℚ) : ℚ :=
  a - n * (ratTrunc (a / n) : ℚ)

/-- One-element deletion as done by JS Array.prototype.splice(start, 1):
a negative start counts from the end (clamped to 0), a start at or past the
length deletes nothing. -/
def jsSplice1 {α : Type} (l : List α) (i : ℤ) : List α :=
  let start : ℕ := if i < 0 then ((l.length : ℤ) + i).toNat else i.toNat
  l.eraseIdx start

/-- Index of the first occurrence of an element, as JS indexOf (-1 when
absent).  The source compares object references; the model compares values,
which agrees on duplicate-free lists. -/
def jsIndexOf {α : Type} [DecidableEq α] (l : List α) (x : α) : ℤ :=
  match l.indexOf? x with
  | some i => (i : ℤ)
  | none => -1

/-- Environment interpreting the opaque numeric primitives of the source:
trigonometric functions, square root, pi, and the stream of Math.random
results (indexed by how many calls happened before). -/
structure MathEnv where
  sinQ : ℚ → ℚ
  cosQ : ℚ → ℚ
  atan2Q : ℚ → ℚ → ℚ
  sqrtQ : ℚ → ℚ
  piQ : ℚ
  randQ : ℕ → ℚ

/-! ## Pattern library (boss-patterns, part_002) -/

structure Vec2 where
  x : ℚ
  y : ℚ
deriving DecidableEq, Repr

/-- BossBulletConfig from boss-patterns. -/
structure BossBulletConfig where
  position : Vec2
  speed : ℚ
  angleRad : ℚ
  width : ℚ
  height : ℚ
deriving DecidableEq, Repr

/-- PatternContext from boss-patterns.  tick is ms since pattern start. -/
structure PatternContext where
  bossPos : Vec2
  playerPos : Vec2
  tick : ℚ
  seed : Option ℕ := none
deriving DecidableEq, Repr

/-- BossPattern from boss-patterns. -/
structure BossPattern where
  name : String
  duration : ℚ
  spawn : PatternContext → List BossBulletConfig

def degToRad (env : MathEnv) (deg : ℚ) : ℚ :=
  deg * env.piQ / 180

/-- slow from boss-patterns: all bullet speeds scaled to 80 %. -/
def slowQ (v : ℚ) : ℚ := v * (8 / 10)

def angleToPlayer (env : MathEnv) (f t : Vec2) : ℚ :=
  env.atan2Q (t.y - f.y) (t.x - f.x)

def radialBurstSpawn (env : MathEnv) (b : Vec2) (_p : Vec2) (t : ℚ) :
    List BossBulletConfig :=
  if jsMod t 600 < 16 then
    (List.range 24).map (fun i =>
      { position := ⟨b.x, b.y + 30⟩
        speed := slowQ (5/2)
        angleRad := degToRad env ((360/24 : ℚ) * i + jsMod (t/8) 360)
        width := 4, height := 8 })
  else []

def radialBurst (env : MathEnv) : BossPattern :=
  { name := "radialBurst", duration := 5000
    spawn := fun c => radialBurstSpawn env c.bossPos c.playerPos c.tick }

def spiralStreamSpawn (env : MathEnv) (b : Vec2) (_p : Vec2) (t : ℚ) :
    List BossBulletConfig :=
  if jsMod t 60 < 16 then
    (List.range 2).map (fun i =>
      { position := ⟨b.x, b.y + 20⟩
        speed := slowQ 3
        angleRad := degToRad env (jsMod (t/6) 360 + (i : ℚ) * 180)
        width := 4, height := 8 })
  else []

def spiralStream (env : MathEnv) : BossPattern :=
  { name := "spiralStream", duration := 6000
    spawn := fun c => spiralStreamSpawn env c.bossPos c.playerPos c.tick }

def aimedVolleySpawn (env : MathEnv) (b : Vec2) (p : Vec2) (t : ℚ) :
    List BossBulletConfig :=
  if jsMod t 500 < 16 then
    (List.range 5).map (fun k =>
      let i : ℚ := (k : ℚ) - 2
      { position := ⟨b.x, b.y + 30⟩
        speed := slowQ (16/5)
        angleRad := angleToPlayer env b p + (i * degToRad env 20) / ((5 : ℚ) / 2)
        width := 4, height := 8 })
  else []

def aimedVolley (env : MathEnv) : BossPattern :=
  { name := "aimedVolley", duration := 4000
    spawn := fun c => aimedVolleySpawn env c.bossPos c.playerPos c.tick }

def waveRingsSpawn (env : MathEnv) (b : Vec2) (_p : Vec2) (t : ℚ) :
    List BossBulletConfig :=
  if jsMod t 400 < 16 then
    (List.range 16).map (fun i =>
      { position := ⟨b.x, b.y + 24⟩
        speed := slowQ (11/5)
        angleRad := ((i : ℚ)/16) * env.piQ * 2 + env.sinQ (t/250) * (3/5)
        width := 4, height := 8 })
  else []

def waveRings (env : MathEnv) : BossPattern :=
  { name := "waveRings", duration := 5000
    spawn := fun c => waveRingsSpawn env c.bossPos c.playerPos c.tick }

def zigzagBarrageSpawn (env : MathEnv) (b : Vec2) (_p : Vec2) (t : ℚ) :
    List BossBulletConfig :=
  if jsMod t 56 < 12 then
    (List.range 5).map (fun k =>
      let i : ℚ := (k : ℚ) - 2
      { position := ⟨b.x + i * 26, b.y + 18⟩
        speed := slowQ (51/20 + (1/5) * |i|)
        angleRad := degToRad env (60 + env.sinQ (t/250 + i) * 60 + i * 20)
        width := 4, height := 8 })
  else []

def zigzagBarrage (env : MathEnv) : BossPattern :=
  { name := "zigzagBarrage", duration := 4800
    spawn := fun c => zigzagBarrageSpawn env c.bossPos c.playerPos c.tick }

def crossSpreadSpawn (env : MathEnv) (b : Vec2) (_p : Vec2) (t : ℚ) :
    List BossBulletConfig :=
  if jsMod t 480 < 20 then
    (List.range 8).map (fun i =>
      { position := ⟨b.x, b.y + 23⟩
        speed := slowQ (14/5)
        angleRad := degToRad env ((i : ℚ) * 45 + t/8)
        width := 4, height := 8 })
  else []

def crossSpread (env : MathEnv) : BossPattern :=
  { name := "crossSpread", duration := 4400
    spawn := fun c => crossSpreadSpawn env c.bossPos c.playerPos c.tick }

def laserWallSpawn (env : MathEnv) (b : Vec2) (_p : Vec2) (t : ℚ) :
    List BossBulletConfig :=
  if jsMod t 700 < 16 then
    let gapPos : ℤ := ⌊|env.sinQ (t/1200)| * ((18 : ℚ) - 2)⌋
    (List.range 18).filterMap (fun i =>
      if (i : ℤ) = gapPos ∨ (i : ℤ) = gapPos + 1 then none
      else some
        { position := ⟨70 + (i : ℚ) * 38, b.y + 5⟩
          speed := slowQ (13/5)
          angleRad := degToRad env 90
          width := 6, height := 16 })
  else []

def laserWall (env : MathEnv) : BossPattern :=
  { name := "laserWall", duration := 6000
    spawn := fun c => laserWallSpawn env c.bossPos c.playerPos c.tick }

def inwardSpiralSpawn (env : MathEnv) (b : Vec2) (p : Vec2) (t : ℚ) :
    List BossBulletConfig :=
  if jsMod t 83 < 16 then
    (List.range 7).map (fun i =>
      { position := ⟨b.x, b.y⟩
        speed := slowQ (49/20 + |(i : ℚ) - 3| * (1/10))
        angleRad := angleToPlayer env b p + ((i : ℚ) - 3) * (9/20) +
          env.sinQ (t/220) * (2/5)
        width := 4, height := 8 })
  else []

def inwardSpiral (env : MathEnv) : BossPattern :=
  { name := "inwardSpiral", duration := 5800
    spawn := fun c => inwardSpiralSpawn env c.bossPos c.playerPos c.tick }

def sidelongZigzagSpawn (env : MathEnv) (b : Vec2) (_p : Vec2) (t : ℚ) :
    List BossBulletConfig :=
  if jsMod t 220 < 18 then
    (List.range 2).flatMap (fun side =>
      (List.range 4).map (fun i =>
        { position := ⟨if side = 0 then 70 else 620, b.y + 10 + (i : ℚ) * 9⟩
          speed := slowQ (33/10 - (1/5) * (i : ℚ))
          angleRad := degToRad env (if side = 0 then 75 else 105) +
            env.sinQ (t/130 + (i : ℚ)) * (2/5)
          width := 4, height := 8 }))
  else []

def sidelongZigzag (env : MathEnv) : BossPattern :=
  { name := "sidelongZigzag", duration := 4500
    spawn := fun c => sidelongZigzagSpawn env c.bossPos c.playerPos c.tick }

def curtainRainSpawn (env : MathEnv) (b : Vec2) (_p : Vec2) (t : ℚ) :
    List BossBulletConfig :=
  if jsMod t 90 < 16 then
    (List.range 9).map (fun i =>
      { position := ⟨80 + (i : ℚ) * 70, b.y⟩
        speed := slowQ (13/5)
        angleRad := degToRad env (90 + env.sinQ ((t + (i : ℚ) * 50)/200) * 20)
        width := 4, height := 8 })
  else []

def curtainRain (env : MathEnv) : BossPattern :=
  { name := "curtainRain", duration := 5000
    spawn := fun c => curtainRainSpawn env c.bossPos c.playerPos c.tick }

def gappedRingSweepSpawn (env : MathEnv) (b : Vec2) (_p : Vec2) (t : ℚ) :
    List BossBulletConfig :=
  if jsMod t 500 < 16 then
    let gapStart : ℤ := ⌊jsMod (t/10) 36⌋
    (List.range 36).filterMap (fun i =>
      if (i : ℚ) = jsMod ((gapStart : ℚ) + 0 * 18) 36 ∨
         (i : ℚ) = jsMod ((gapStart : ℚ) + 1 * 18) 36 then none
      else some
        { position := ⟨b.x, b.y⟩
          speed := slowQ (12/5)
          angleRad := degToRad env ((360/36 : ℚ) * i + t/8)
          width := 4, height := 8 })
  else []

def gappedRingSweep (env : MathEnv) : BossPattern :=
  { name := "gappedRingSweep", duration := 4500
    spawn := fun c => gappedRingSweepSpawn env c.bossPos c.playerPos c.tick }

def aimedSpiralSpawn (env : MathEnv) (b : Vec2) (p : Vec2) (t : ℚ) :
    List BossBulletConfig :=
  if jsMod t 70 < 16 then
    (List.range 3).map (fun i =>
      { position := ⟨b.x, b.y⟩
        speed := slowQ 3
        angleRad := angleToPlayer env b p + t/200 + (i : ℚ) * (1/2)
        width := 4, height := 8 })
  else []

def aimedSpiral (env : MathEnv) : BossPattern :=
  { name := "aimedSpiral", duration := 5500
    spawn := fun c => aimedSpiralSpawn env c.bossPos c.playerPos c.tick }

def simpleRainSpawn (env : MathEnv) (_b : Vec2) (_p : Vec2) (t : ℚ) :
    List BossBulletConfig :=
  if jsMod t 150 < 16 then
    (List.range 6).map (fun i =>
      { position := ⟨150 + (i : ℚ) * 100, _b.y⟩
        speed := slowQ 2
        angleRad := degToRad env 90
        width := 4, height := 8 })
  else []

def simpleRain (env : MathEnv) : BossPattern :=
  { name := "simpleRain", duration := 4000
    spawn := fun c => simpleRainSpawn env c.bossPos c.playerPos c.tick }

def denseSpiralSpawn (env : MathEnv) (b : Vec2) (_p : Vec2) (t : ℚ) :
    List BossBulletConfig :=
  if jsMod t 40 < 16 then
    (List.range 4).map (fun i =>
      { position := ⟨b.x, b.y⟩
        speed := slowQ (7/2)
        angleRad := degToRad env (jsMod (t/5) 360 + (i : ℚ) * 90)
        width := 4, height := 8 })
  else []

def denseSpiral (env : MathEnv) : BossPattern :=
  { name := "denseSpiral", duration := 6000
    spawn := fun c => denseSpiralSpawn env c.bossPos c.playerPos c.tick }

/-- DefaultBossScript before the one-time Fisher-Yates shuffle at module
load; the shuffle permutes this list without touching any pattern. -/
def defaultBossScriptBase (env : MathEnv) : List BossPattern :=
  [radialBurst env, zigzagBarrage env, spiralStream env, crossSpread env,
   aimedVolley env, waveRings env, curtainRain env, gappedRingSweep env,
   aimedSpiral env, laserWall env, inwardSpiral env, sidelongZigzag env]

def boss1Patterns (env : MathEnv) : List BossPattern :=
  [spiralStream env, aimedVolley env, simpleRain env]

def boss2Patterns (env : MathEnv) : List BossPattern :=
  [radialBurst env, zigzagBarrage env, waveRings env, crossSpread env,
   curtainRain env]

def boss3Patterns (env : MathEnv) : List BossPattern :=
  [laserWall env, inwardSpiral env, sidelongZigzag env, gappedRingSweep env,
   denseSpiral env]

/-- Every pattern exported by boss-patterns. -/
def allLibraryPatterns (env : MathEnv) : List BossPattern :=
  defaultBossScriptBase env ++ boss1Patterns env ++ boss2Patterns env ++
    boss3Patterns env

/-- C8 — Every pattern of the library is a deterministic function of the
bossPos, playerPos and tick fields of its PatternContext: two calls with
identical values of those three fields (the optional seed and anything else
may differ) return identical bullet-spawn descriptor lists; no wall clock
and no mutable state enters any spawn body. -/
theorem C8_patterns_deterministic (env : MathEnv) (pat : BossPattern)
    (hmem : pat ∈ allLibraryPatterns env) (c₁ c₂ : PatternContext)
    (hb : c₁.bossPos = c₂.bossPos) (hp : c₁.playerPos = c₂.playerPos)
    (ht : c₁.tick = c₂.tick) : pat.spawn c₁ = pat.spawn c₂ := by
  simp only [allLibraryPatterns, defaultBossScriptBase, boss1Patterns,
    boss2Patterns, boss3Patterns, List.cons_append, List.nil_append,
    List.mem_cons, List.not_mem_nil, or_false] at hmem
  rcases hmem with rfl | rfl | rfl | rfl | rfl | rfl | rfl | rfl | rfl |
    rfl | rfl | rfl | rfl | rfl | rfl | rfl | rfl | rfl | rfl | rfl | rfl |
    rfl | rfl | rfl | rfl <;>
  · simp only [radialBurst, zigzagBarrage, spiralStream, crossSpread,
      aimedVolley, waveRings, curtainRain, gappedRingSweep, aimedSpiral,
      laserWall, inwardSpiral, sidelongZigzag, simpleRain, denseSpiral]
    rw [hb, hp, ht]

/-- A concrete interpretation of the numeric primitives, used by witnesses. -/
def envZero : MathEnv :=
  ⟨fun _ => 0, fun _ => 0, fun _ _ => 0, fun _ => 0, 0, fun _ => 0⟩

/-! ## Shared geometry -/

/-- An axis-aligned rectangle as consumed by checkCollision. -/
structure Rect where
  x : ℚ
  y : ℚ
  width : ℚ
  height : ℚ
deriving DecidableEq, Repr

/-- checkCollision of part_000/part_001 and checkRectCollision of
touhou-game.ts (identical bodies): strict axis-aligned box overlap. -/
def checkCollision (r1 r2 : Rect) : Bool :=
  (r1.x < r2.x + r2.width) && (r1.x + r1.width > r2.x) &&
  (r1.y < r2.y + r2.height) && (r1.y + r1.height > r2.y)

/-! ## part_000 : single-boss variant -/

namespace P0

inductive BulletOwner where
  | player
  | enemy
deriving DecidableEq, Repr

/-- Bullet of part_000/part_001: either a velocity vector (vx, vy) or the
legacy scalar speed along the owner axis. -/
structure Bullet where
  x : ℚ
  y : ℚ
  width : ℚ
  height : ℚ
  speed : ℚ
  type : BulletOwner
  vx : Option ℚ := none
  vy : Option ℚ := none
deriving DecidableEq, Repr

inductive AnimKind where
  | idle
  | move
  | attack
deriving DecidableEq, Repr

/-- Player of part_000 (the sprite handle, an external image object, is
not simulation state). -/
structure Player where
  x : ℚ
  y : ℚ
  width : ℚ
  height : ℚ
  speed : ℚ
  bullets : List Bullet
  lastShot : ℚ
  shootCooldown : ℚ
  spriteWidth : ℚ := 0
  spriteHeight : ℚ := 0
  frameWidth : ℚ := 32
  frameHeight : ℚ := 40
  currentFrame : ℕ := 0
  animationSpeed : ℚ := 150
  lastFrameTime : ℚ := 0
  totalFrames : ℕ := 4
  framesPerRow : ℕ := 4
  currentRow : ℕ := 0
  animationType : AnimKind := .idle
deriving DecidableEq, Repr

/-- Fodder enemy of part_000 (legacy collection; updateCollisions still
iterates it). -/
structure Enemy where
  x : ℚ
  y : ℚ
  width : ℚ
  height : ℚ
  speed : ℚ
  bullets : List Bullet
  lastShot : ℚ
  shootCooldown : ℚ
  health : ℚ
  maxHealth : ℚ
  spriteWidth : ℚ := 0
  spriteHeight : ℚ := 0
  frameWidth : ℚ := 32
  frameHeight : ℚ := 40
  currentFrame : ℕ := 0
  animationSpeed : ℚ := 200
  lastFrameTime : ℚ := 0
  totalFrames : ℕ := 8
  framesPerRow : ℕ := 8
  currentRow : ℕ := 0
  animationType : AnimKind := .idle
deriving DecidableEq, Repr

structure Boss where
  x : ℚ
  y : ℚ
  width : ℚ
  height : ℚ
  health : ℚ
  maxHealth : ℚ
  bullets : List Bullet
deriving DecidableEq, Repr

/-- Particle; the hsl color string is represented by its random hue. -/
structure Particle where
  x : ℚ
  y : ℚ
  vx : ℚ
  vy : ℚ
  life : ℚ
  maxLife : ℚ
  hue : ℚ
  size : ℚ
deriving DecidableEq, Repr

structure GameState where
  isRunning : Bool
  isPaused : Bool
  score : ℚ
  lives : ℚ
  level : ℚ
deriving DecidableEq, Repr

/-- The simulation state of the part_000 TouhouGame class.  rng counts the
Math.random calls made so far (the environment supplies their results). -/
structure State where
  gameState : GameState
  player : Player
  enemies : List Enemy
  boss : Option Boss
  particles : List Particle
  invulnerableUntil : ℚ
  patternIndex : ℕ
  patternElapsed : ℚ
  rng : ℕ
deriving DecidableEq, Repr

def playerHitboxRadius : ℚ := 4

def bulletRect (b : Bullet) : Rect := ⟨b.x, b.y, b.width, b.height⟩

def enemyRect (e : Enemy) : Rect := ⟨e.x, e.y, e.width, e.height⟩

def bossRect (bs : Boss) : Rect := ⟨bs.x, bs.y, bs.width, bs.height⟩

/-- The small centered player hitbox built in updateCollisions. -/
def playerHitbox (p : Player) : Rect :=
  ⟨p.x + p.width / 2 - playerHitboxRadius,
   p.y + p.height / 2 - playerHitboxRadius,
   playerHitboxRadius * 2, playerHitboxRadius * 2⟩

/-- createExplosion: ten particles with random velocity, hue and size.
Each particle consumes four Math.random results, in source order
(vx, vy, hue, size). -/
def createExplosion (env : MathEnv) (cx cy : ℚ) (rng : ℕ)
    (ps : List Particle) : List Particle × ℕ :=
  (ps ++ (List.range 10).map (fun i =>
    let k := rng + 4 * i
    { x := cx, y := cy
      vx := (env.randQ k - 1/2) * 200
      vy := (env.randQ (k+1) - 1/2) * 200
      life := 1000, maxLife := 1000
      hue := env.randQ (k+2) * 60 + 300
      size := env.randQ (k+3) * 4 + 2 }),
   rng + 40)

/-- Per-bullet motion of a player-pool bullet in updateBullets: the
velocity vector when both components are numbers, else the legacy upward
scalar speed. -/
def movePlayerBullet (b : Bullet) : Bullet :=
  match b.vx, b.vy with
  | some vx, some vy => { b with x := b.x + vx, y := b.y + vy }
  | _, _ => { b with y := b.y - b.speed }

/-- The filter predicate of the player pool in updateBullets: culled above
the top edge and beyond a 20-unit horizontal margin; there is no bottom
bound. -/
def keepPlayerBullet (W : ℚ) (b : Bullet) : Bool :=
  (b.y > -b.height) && (b.x ≥ -20) && (b.x ≤ W + 20)

/-- Per-bullet motion of a boss-pool bullet: vector, else downward scalar. -/
def moveBossBullet (b : Bullet) : Bullet :=
  match b.vx, b.vy with
  | some vx, some vy => { b with x := b.x + vx, y := b.y + vy }
  | _, _ => { b with y := b.y + b.speed }

/-- The filter predicate of the boss pool in updateBullets. -/
def keepBossBullet (H : ℚ) (b : Bullet) : Bool :=
  (b.y < H + b.height) && (b.y > -b.height - 10)

/-- updateBullets: each pool is moved and culled in one filter pass; the
mutation inside the filter callback applies to every element, so the pass
equals a map followed by a filter. -/
def updateBullets (W H : ℚ) (st : State) : State :=
  let st1 := { st with player := { st.player with
    bullets := (st.player.bullets.map movePlayerBullet).filter
      (keepPlayerBullet W) } }
  match st1.boss with
  | none => st1
  | some bs => { st1 with boss := some { bs with
      bullets := (bs.bullets.map moveBossBullet).filter (keepBossBullet H) } }

/-- Conversion of pattern spawn descriptors to boss bullets in updateBoss:
vx = cos(angle)·speed, vy = sin(angle)·speed. -/
def convertSpawn (env : MathEnv) (cfgs : List BossBulletConfig) :
    List Bullet :=
  cfgs.map (fun b =>
    { x := b.position.x, y := b.position.y
      width := b.width, height := b.height
      speed := b.speed, type := .enemy
      vx := some (env.cosQ b.angleRad * b.speed)
      vy := some (env.sinQ b.angleRad * b.speed) })

/-- updateBoss: horizontal float movement, then the pattern scheduler —
elapsed += dt always; when the playlist is nonempty, the pattern at
patternIndex % length is invoked with tick = elapsed, its bullets are
appended, and on elapsed ≥ duration the index advances and elapsed resets
to 0.  The playlist is a parameter (the source reads a module-level list
shuffled once at load). -/
def updateBoss (env : MathEnv) (W now dt : ℚ) (pats : List BossPattern)
    (st : State) : State :=
  match st.boss with
  | none => st
  | some bs =>
    let bs1 := { bs with x := W/2 - bs.width/2 + env.sinQ (now/800) * 80 }
    let e := st.patternElapsed + dt
    if h : 0 < pats.length then
      let current := pats.get ⟨st.patternIndex % pats.length,
        Nat.mod_lt _ h⟩
      let ctx : PatternContext :=
        { bossPos := ⟨bs1.x + bs1.width/2, bs1.y + bs1.height/2⟩
          playerPos := ⟨st.player.x + st.player.width/2,
            st.player.y + st.player.height/2⟩
          tick := e }
      let bs2 := { bs1 with
        bullets := bs1.bullets ++ convertSpawn env (current.spawn ctx) }
      if e ≥ current.duration then
        { st with
          boss := some bs2
          patternIndex := st.patternIndex + 1
          patternElapsed := 0 }
      else
        { st with
          boss := some bs2
          patternElapsed := e }
    else
      { st with boss := some bs1, patternElapsed := e }

/-- Body of the inner enemies.forEach callback of updateCollisions (player
bullets vs fodder enemies): on overlap, splice the player-bullet array at
the outer index, decrement the enemy's health, spawn an explosion, and on
health ≤ 0 splice the enemy and award 100 points.  bi is the outer index
(the splice target), k the inner index. -/
def hitEnemyStep (env : MathEnv) (b : Bullet) (bi k : ℕ) (st : State) :
    State :=
  match st.enemies[k]? with
  | none => st
  | some e =>
    if checkCollision (bulletRect b) (enemyRect e) then
      let e1 := { e with health := e.health - 1 }
      let pr := createExplosion env (e1.x + e1.width/2)
        (e1.y + e1.height/2) st.rng st.particles
      let st1 := { st with
        player := { st.player with bullets := st.player.bullets.eraseIdx bi }
        enemies := st.enemies.set k e1
        particles := pr.1
        rng := pr.2 }
      if e1.health ≤ 0 then
        { st1 with
          enemies := st1.enemies.eraseIdx k
          gameState := { st1.gameState with
            score := st1.gameState.score + 100 } }
      else st1
    else st

/-- JS Array.prototype.forEach over the enemies array while it may shrink:
the original length bounds the visit count and an index is visited only
while it is still below the current length. -/
def forEnemiesAux (env : MathEnv) (b : Bullet) (bi : ℕ) :
    ℕ → ℕ → State → State
  | 0, _, st => st
  | fuel+1, k, st =>
    forEnemiesAux env b bi fuel (k+1)
      (if k < st.enemies.length then hitEnemyStep env b bi k st else st)

/-- Outer forEach over the player bullets (also shrinking mid-iteration).
The callback argument is the bullet read at visit time. -/
def collPlayerBulletsVsEnemiesAux (env : MathEnv) :
    ℕ → ℕ → State → State
  | 0, _, st => st
  | fuel+1, k, st =>
    collPlayerBulletsVsEnemiesAux env fuel (k+1)
      (match st.player.bullets[k]? with
       | some b => forEnemiesAux env b k st.enemies.length 0 st
       | none => st)

/-- First block of updateCollisions: player bullets vs fodder enemies. -/
def collPlayerBulletsVsEnemies (env : MathEnv) (st : State) : State :=
  collPlayerBulletsVsEnemiesAux env st.player.bullets.length 0 st

/-- Body of the boss.bullets.forEach callback of updateCollisions (boss
bullets vs the player hitbox): on overlap the bullet is spliced
unconditionally; the life loss, the new invulnerability deadline
now + 1200 and the explosion happen only when now is at or past
invulnerableUntil; reaching 0 lives ends the run. -/
def bossBulletHitStep (env : MathEnv) (now : ℚ) (k : ℕ) (st : State) :
    State :=
  match st.boss with
  | none => st
  | some bs =>
    match bs.bullets[k]? with
    | none => st
    | some b =>
      let hb := playerHitbox st.player
      if checkCollision (bulletRect b) hb then
        let st1 := { st with
          boss := some { bs with bullets := bs.bullets.eraseIdx k } }
        if now ≥ st1.invulnerableUntil then
          let pr := createExplosion env (hb.x + playerHitboxRadius)
            (hb.y + playerHitboxRadius) st1.rng st1.particles
          let st2 := { st1 with
            gameState := { st1.gameState with
              lives := st1.gameState.lives - 1 }
            invulnerableUntil := now + 1200
            particles := pr.1
            rng := pr.2 }
          if st2.gameState.lives ≤ 0 then
            { st2 with gameState := { st2.gameState with
                isRunning := false } }
          else st2
        else st1
      else st

/-- One forEach visit of the boss-bullets pass: the callback runs only
while the index is still below the (shrinking) array length. -/
def collBossBulletsVsPlayerBody (env : MathEnv) (now : ℚ) (k : ℕ)
    (st : State) : State :=
  match st.boss with
  | some bs => if k < bs.bullets.length
      then bossBulletHitStep env now k st else st
  | none => st

def collBossBulletsVsPlayerAux (env : MathEnv) (now : ℚ) :
    ℕ → ℕ → State → State
  | 0, _, st => st
  | fuel+1, k, st =>
    collBossBulletsVsPlayerAux env now fuel (k+1)
      (collBossBulletsVsPlayerBody env now k st)

/-- Second block of updateCollisions: boss bullets vs the player hitbox
(guarded on the boss being present). -/
def collBossBulletsVsPlayer (env : MathEnv) (now : ℚ) (st : State) :
    State :=
  match st.boss with
  | none => st
  | some bs => collBossBulletsVsPlayerAux env now bs.bullets.length 0 st

/-- Body of the player.bullets.forEach callback of updateCollisions
(player bullets vs the boss box): splice the bullet, health -= 1, and on
health ≤ 0 explode, drop the boss and end the run (part_000 has a single
stage). -/
def playerBulletVsBossStep (env : MathEnv) (k : ℕ) (st : State) : State :=
  match st.boss with
  | none => st
  | some bs =>
    match st.player.bullets[k]? with
    | none => st
    | some b =>
      if checkCollision (bulletRect b) (bossRect bs) then
        let bs1 := { bs with health := bs.health - 1 }
        let st1 := { st with
          player := { st.player with
            bullets := st.player.bullets.eraseIdx k }
          boss := some bs1 }
        if bs1.health ≤ (0 : ℚ) then
          let pr := createExplosion env (bs1.x + bs1.width/2)
            (bs1.y + bs1.height/2) st1.rng st1.particles
          { st1 with
            particles := pr.1
            rng := pr.2
            boss := none
            gameState := { st1.gameState with isRunning := false } }
        else st1
      else st

def collPlayerBulletsVsBossAux (env : MathEnv) : ℕ → ℕ → State → State
  | 0, _, st => st
  | fuel+1, k, st =>
    collPlayerBulletsVsBossAux env fuel (k+1)
      (if k < st.player.bullets.length
       then playerBulletVsBossStep env k st else st)

/-- Third block of updateCollisions: player bullets vs the boss box. -/
def collPlayerBulletsVsBoss (env : MathEnv) (st : State) : State :=
  match st.boss with
  | none => st
  | some _ => collPlayerBulletsVsBossAux env st.player.bullets.length 0 st

/-- updateCollisions of part_000: the three blocks in source order.  All
Date.now() reads of the frame are the now parameter. -/
def updateCollisions (env : MathEnv) (now : ℚ) (st : State) : State :=
  collPlayerBulletsVsBoss env
    (collBossBulletsVsPlayer env now (collPlayerBulletsVsEnemies env st))

end P0

/-- Witness for C8: the radial-burst pattern at two contexts that differ
only in the seed field returns the same descriptors. -/
theorem C8_patterns_deterministic_witness :
    ((radialBurst envZero).spawn ⟨⟨10, 20⟩, ⟨30, 40⟩, 5, none⟩ =
       (radialBurst envZero).spawn ⟨⟨10, 20⟩, ⟨30, 40⟩, 5, some 7⟩) ∧
    (some 7 ≠ (none : Option ℕ)) := by
  refine ⟨?_, by decide⟩
  exact C8_patterns_deterministic envZero (radialBurst envZero)
    (by simp [allLibraryPatterns, defaultBossScriptBase]) _ _ rfl rfl rfl

/-! ## C2: the part_000 collision resolver at a concrete failing input -/

/-- A player bullet overlapping both fodder enemies below. -/
def c2BulletA : P0.Bullet :=
  { x := 25, y := 10, width := 4, height := 8, speed := 7,
    type := .player, vx := some 0, vy := some (-7) }

/-- A second player bullet far away from every enemy. -/
def c2BulletB : P0.Bullet :=
  { x := 500, y := 400, width := 4, height := 8, speed := 7,
    type := .player, vx := some 0, vy := some (-7) }

def c2Enemy1 : P0.Enemy :=
  { x := 0, y := 0, width := 32, height := 40, speed := 1, bullets := [],
    lastShot := 0, shootCooldown := 1000, health := 2, maxHealth := 2 }

def c2Enemy2 : P0.Enemy :=
  { x := 20, y := 0, width := 32, height := 40, speed := 1, bullets := [],
    lastShot := 0, shootCooldown := 1000, health := 2, maxHealth := 2 }

def c2FailState : P0.State :=
  { gameState :=
      { isRunning := true, isPaused := false, score := 0, lives := 3,
        level := 1 }
    player :=
      { x := 184, y := 410, width := 32, height := 40, speed := 5,
        bullets := [c2BulletA, c2BulletB], lastShot := 0,
        shootCooldown := 150 }
    enemies := [c2Enemy1, c2Enemy2]
    boss := none
    particles := []
    invulnerableUntil := 0
    patternIndex := 0
    patternElapsed := 0
    rng := 0 }

/-- C2 — evaluation at the failing input: one player bullet overlapping two
fodder enemies in the same frame.  The forEach/splice resolver decrements
the health of BOTH enemies (the detached bullet keeps resolving after its
splice), and the second splice at the stale outer index removes the other,
non-colliding bullet, which is also skipped by the shrunken iteration.  The
claim requires at most one enemy damaged and the bullet removed exactly
once. -/
theorem C2_resolver_failing_input_eval :
    ((P0.updateCollisions envZero 0 c2FailState).enemies.map
       (fun e => e.health) = [1, 1]) ∧
    ((P0.updateCollisions envZero 0 c2FailState).player.bullets = []) ∧
    c2FailState.enemies.map (fun e => e.health) = [2, 2] ∧
    c2FailState.player.bullets.length = 2 ∧
    checkCollision (P0.bulletRect c2BulletA) (P0.enemyRect c2Enemy1) = true ∧
    checkCollision (P0.bulletRect c2BulletA) (P0.enemyRect c2Enemy2) = true ∧
    checkCollision (P0.bulletRect c2BulletB) (P0.enemyRect c2Enemy1) = false ∧
    checkCollision (P0.bulletRect c2BulletB) (P0.enemyRect c2Enemy2) = false
    := by
  norm_num [P0.updateCollisions, P0.collPlayerBulletsVsEnemies,
    P0.collPlayerBulletsVsEnemiesAux, P0.forEnemiesAux, P0.hitEnemyStep,
    P0.collBossBulletsVsPlayer, P0.collPlayerBulletsVsBoss, c2FailState,
    c2BulletA, c2BulletB, c2Enemy1, c2Enemy2, checkCollision, P0.bulletRect,
    P0.enemyRect, P0.createExplosion, envZero]

/-! ## C1: the invulnerability window of the part_000 resolver -/

/-- While the clock is strictly before the invulnerability deadline, one
boss-bullet callback never changes lives or the deadline (it may still
splice the bullet). -/
theorem P0.bossBulletHitStep_gated (env : MathEnv) (now : ℚ) (k : ℕ)
    (st : P0.State) (h : now < st.invulnerableUntil) :
    (P0.bossBulletHitStep env now k st).gameState.lives
        = st.gameState.lives ∧
    (P0.bossBulletHitStep env now k st).invulnerableUntil
        = st.invulnerableUntil := by
  unfold P0.bossBulletHitStep
  rcases hbo : st.boss with _ | bs
  · exact ⟨rfl, rfl⟩
  · dsimp only
    rcases hbk : bs.bullets[k]? with _ | b
    · exact ⟨rfl, rfl⟩
    · dsimp only
      split
      · rw [if_neg (not_le.mpr h)]
        exact ⟨rfl, rfl⟩
      · exact ⟨rfl, rfl⟩

/-- The same for a whole visit body. -/
theorem P0.collBossBulletsVsPlayerBody_gated (env : MathEnv) (now : ℚ)
    (k : ℕ) (st : P0.State) (h : now < st.invulnerableUntil) :
    (P0.collBossBulletsVsPlayerBody env now k st).gameState.lives
        = st.gameState.lives ∧
    (P0.collBossBulletsVsPlayerBody env now k st).invulnerableUntil
        = st.invulnerableUntil := by
  unfold P0.collBossBulletsVsPlayerBody
  rcases hbo : st.boss with _ | bs
  · exact ⟨rfl, rfl⟩
  · dsimp only
    split
    · exact P0.bossBulletHitStep_gated env now k st h
    · exact ⟨rfl, rfl⟩

/-- While the clock is strictly before the deadline, the whole boss-bullet
pass preserves lives and the deadline. -/
theorem P0.collBossAux_gated (env : MathEnv) (now : ℚ) :
    ∀ (fuel k : ℕ) (st : P0.State), now < st.invulnerableUntil →
    (P0.collBossBulletsVsPlayerAux env now fuel k st).gameState.lives
        = st.gameState.lives ∧
    (P0.collBossBulletsVsPlayerAux env now fuel k st).invulnerableUntil
        = st.invulnerableUntil := by
  intro fuel
  induction fuel with
  | zero => exact fun k st _ => ⟨rfl, rfl⟩
  | succ n ih =>
    intro k st h
    have hb := P0.collBossBulletsVsPlayerBody_gated env now k st h
    have h' : now < (P0.collBossBulletsVsPlayerBody env now k st).invulnerableUntil := by
      rw [hb.2]; exact h
    have := ih (k+1) (P0.collBossBulletsVsPlayerBody env now k st) h'
    simp only [P0.collBossBulletsVsPlayerAux]
    exact ⟨this.1.trans hb.1, this.2.trans hb.2⟩

/-- One callback keeps the boss present and only ever splices its bullet
list. -/
theorem P0.bossBulletHitStep_sublist (env : MathEnv) (now : ℚ) (k : ℕ)
    (st : P0.State) (bs : P0.Boss) (h : st.boss = some bs) :
    ∃ bs', (P0.bossBulletHitStep env now k st).boss = some bs' ∧
      bs'.bullets.Sublist bs.bullets := by
  unfold P0.bossBulletHitStep
  rw [h]
  dsimp only
  rcases hbk : bs.bullets[k]? with _ | b
  · exact ⟨bs, h, List.Sublist.refl _⟩
  · dsimp only
    split
    · split
      · split
        · exact ⟨_, rfl, List.eraseIdx_sublist _ _⟩
        · exact ⟨_, rfl, List.eraseIdx_sublist _ _⟩
      · exact ⟨_, rfl, List.eraseIdx_sublist _ _⟩
    · exact ⟨bs, h, List.Sublist.refl _⟩

theorem P0.collBossBulletsVsPlayerBody_sublist (env : MathEnv) (now : ℚ)
    (k : ℕ) (st : P0.State) (bs : P0.Boss) (h : st.boss = some bs) :
    ∃ bs', (P0.collBossBulletsVsPlayerBody env now k st).boss = some bs' ∧
      bs'.bullets.Sublist bs.bullets := by
  unfold P0.collBossBulletsVsPlayerBody
  rw [h]
  dsimp only
  split
  · exact P0.bossBulletHitStep_sublist env now k st bs h
  · exact ⟨bs, h, List.Sublist.refl _⟩

/-- The pass keeps the boss present and only ever splices its bullets. -/
theorem P0.collBossAux_sublist (env : MathEnv) (now : ℚ) :
    ∀ (fuel k : ℕ) (st : P0.State) (bs : P0.Boss), st.boss = some bs →
    ∃ bs', (P0.collBossBulletsVsPlayerAux env now fuel k st).boss = some bs'
      ∧ bs'.bullets.Sublist bs.bullets := by
  intro fuel
  induction fuel with
  | zero => exact fun k st bs h => ⟨bs, h, List.Sublist.refl _⟩
  | succ n ih =>
    intro k st bs h
    obtain ⟨bs1, hbs1, hsub1⟩ :=
      P0.collBossBulletsVsPlayerBody_sublist env now k st bs h
    obtain ⟨bs2, hbs2, hsub2⟩ :=
      ih (k+1) (P0.collBossBulletsVsPlayerBody env now k st) bs1 hbs1
    exact ⟨bs2, by simpa [P0.collBossBulletsVsPlayerAux] using hbs2,
      hsub2.trans hsub1⟩

/-- C1 (amended) — In the part_000/part_001 variants, whose resolver has an
invulnerableUntil gate: when the first boss bullet overlaps the player
hitbox at a time at or past the deadline, the pass removes that bullet,
decrements lives by exactly one and sets the deadline to now + the iFrame
duration (1200 ms here); and any collision pass run strictly before the
deadline — in particular any second hit less than the window after the
first — loses no further life, so a pair of hits less than the window
apart costs exactly one life.  (The scrolling-shooter variant has no such
gate: see the counterexample.) -/
theorem C1_iframe_window_part000 (env : MathEnv) (now₁ : ℚ)
    (st : P0.State) (bs : P0.Boss) (b : P0.Bullet) (rest : List P0.Bullet)
    (hboss : st.boss = some bs) (hbul : bs.bullets = b :: rest)
    (hdup : b ∉ rest)
    (hover : checkCollision (P0.bulletRect b) (P0.playerHitbox st.player)
      = true)
    (hgate : now₁ ≥ st.invulnerableUntil) :
    ((P0.collBossBulletsVsPlayer env now₁ st).gameState.lives
        = st.gameState.lives - 1) ∧
    ((P0.collBossBulletsVsPlayer env now₁ st).invulnerableUntil
        = now₁ + 1200) ∧
    (∀ bs₁, (P0.collBossBulletsVsPlayer env now₁ st).boss = some bs₁ →
        b ∉ bs₁.bullets) ∧
    (∀ (env₂ : MathEnv) (now₂ : ℚ) (st₂ : P0.State),
        now₂ < st₂.invulnerableUntil →
        (P0.collBossBulletsVsPlayer env₂ now₂ st₂).gameState.lives
          = st₂.gameState.lives) := by
  have hlen : bs.bullets.length = rest.length + 1 := by rw [hbul]; rfl
  have hpos : 0 < bs.bullets.length := by rw [hlen]; exact Nat.succ_pos _
  have hstep :
      (P0.bossBulletHitStep env now₁ 0 st).gameState.lives
          = st.gameState.lives - 1 ∧
      (P0.bossBulletHitStep env now₁ 0 st).invulnerableUntil
          = now₁ + 1200 ∧
      (P0.bossBulletHitStep env now₁ 0 st).boss
          = some { bs with bullets := rest } := by
    unfold P0.bossBulletHitStep
    rw [hboss]
    dsimp only
    rw [hbul]
    simp only [List.getElem?_cons_zero]
    rw [if_pos hover, if_pos hgate]
    split
    · exact ⟨rfl, rfl, rfl⟩
    · exact ⟨rfl, rfl, rfl⟩
  have h1 : P0.collBossBulletsVsPlayer env now₁ st
      = P0.collBossBulletsVsPlayerAux env now₁ rest.length 1
          (P0.bossBulletHitStep env now₁ 0 st) := by
    unfold P0.collBossBulletsVsPlayer
    rw [hboss]
    dsimp only
    rw [hlen]
    simp only [P0.collBossBulletsVsPlayerAux]
    congr 1
    unfold P0.collBossBulletsVsPlayerBody
    rw [hboss]
    dsimp only
    rw [if_pos hpos]
  have hlt : now₁ < (P0.bossBulletHitStep env now₁ 0 st).invulnerableUntil :=
    by rw [hstep.2.1]; linarith
  have hg := P0.collBossAux_gated env now₁ rest.length 1
    (P0.bossBulletHitStep env now₁ 0 st) hlt
  refine ⟨?_, ?_, ?_, ?_⟩
  · rw [h1]; exact hg.1.trans hstep.1
  · rw [h1]; exact hg.2.trans hstep.2.1
  · intro bs₁ hbs₁
    obtain ⟨bs', hbs', hsub⟩ := P0.collBossAux_sublist env now₁ rest.length 1
      (P0.bossBulletHitStep env now₁ 0 st) { bs with bullets := rest }
      hstep.2.2
    rw [h1, hbs'] at hbs₁
    cases hbs₁
    intro hmem
    exact hdup (hsub.subset hmem)
  · intro env₂ now₂ st₂ h₂
    unfold P0.collBossBulletsVsPlayer
    rcases hb₂ : st₂.boss with _ | bs₂
    · rfl
    · exact (P0.collBossAux_gated env₂ now₂ bs₂.bullets.length 0 st₂ h₂).1

def c1Bullet : P0.Bullet :=
  { x := 112, y := 116, width := 4, height := 8, speed := 2,
    type := .enemy, vx := some 0, vy := some 2 }

def c1Boss : P0.Boss :=
  { x := 300, y := 40, width := 96, height := 96, health := 1000,
    maxHealth := 1000, bullets := [c1Bullet] }

def c1State : P0.State :=
  { gameState :=
      { isRunning := true, isPaused := false, score := 0, lives := 3,
        level := 1 }
    player :=
      { x := 100, y := 100, width := 32, height := 40, speed := 5,
        bullets := [], lastShot := 0, shootCooldown := 150 }
    enemies := []
    boss := some c1Boss
    particles := []
    invulnerableUntil := 0
    patternIndex := 0
    patternElapsed := 0
    rng := 0 }

/-- Witness for C1: a concrete hit at time 5000 on a 3-life player with an
expired deadline costs one life and arms the deadline at 6200. -/
theorem C1_iframe_window_part000_witness :
    ((P0.collBossBulletsVsPlayer envZero 5000 c1State).gameState.lives
        = 2) ∧
    ((P0.collBossBulletsVsPlayer envZero 5000 c1State).invulnerableUntil
        = 6200) := by
  have h := C1_iframe_window_part000 envZero 5000 c1State c1Boss c1Bullet []
    rfl rfl (by simp)
    (by norm_num [checkCollision, P0.bulletRect, P0.playerHitbox, c1Bullet,
      c1State, P0.playerHitboxRadius])
    (by norm_num [c1State])
  refine ⟨?_, ?_⟩
  · rw [h.1]; norm_num [c1State]
  · rw [h.2.1]; norm_num

/-! ## C6 / C9: the pattern-scheduler cursor -/

/-- The cursor (patternIndex, patternElapsed) action of one updateBoss
tick, isolated from bullet spawning: elapsed always grows by dt; with a
nonempty playlist the duration of the pattern at patternIndex modulo the
length gates the rotation (advance by one, reset elapsed to 0); with an
empty playlist nothing rotates. -/
def schedStep (durs : List ℚ) (dt : ℚ) (c : ℕ × ℚ) : ℕ × ℚ :=
  let e := c.2 + dt
  match durs[c.1 % durs.length]? with
  | some dur => if e ≥ dur then (c.1 + 1, 0) else (c.1, e)
  | none => (c.1, e)

/-- The cursor of updateBoss is exactly schedStep on the playlist's
duration list (whenever a boss is present; with no boss updateBoss is the
identity). -/
theorem P0.updateBoss_cursor (env : MathEnv) (W now dt : ℚ)
    (pats : List BossPattern) (st : P0.State) (bs : P0.Boss)
    (h : st.boss = some bs) :
    ((P0.updateBoss env W now dt pats st).patternIndex,
     (P0.updateBoss env W now dt pats st).patternElapsed)
      = schedStep (pats.map BossPattern.duration) dt
          (st.patternIndex, st.patternElapsed) := by
  unfold P0.updateBoss schedStep
  rw [h]
  dsimp only
  rcases Nat.eq_zero_or_pos pats.length with hl | hl
  · rw [dif_neg (by simp [hl])]
    have : (pats.map BossPattern.duration)[st.patternIndex %
        (pats.map BossPattern.duration).length]? = none := by
      simp [List.length_map, hl, List.length_eq_zero.mp hl]
    rw [this]
  · rw [dif_pos hl]
    have hmod : st.patternIndex % pats.length < pats.length :=
      Nat.mod_lt _ hl
    have hsome : (pats.map BossPattern.duration)[st.patternIndex %
        (pats.map BossPattern.duration).length]?
          = some ((pats.get ⟨st.patternIndex % pats.length,
              hmod⟩).duration) := by
      simp only [List.length_map]
      rw [List.getElem?_eq_getElem (by simpa [List.length_map] using hmod)]
      simp [List.getElem_map, List.get_eq_getElem]
    rw [hsome]
    dsimp only
    split
    · rfl
    · rfl

/-- One schedStep on a constant-duration playlist. -/
theorem schedStep_replicate (K : ℕ) (hK : 0 < K) (D d : ℚ) (j : ℕ)
    (e : ℚ) :
    schedStep (List.replicate K D) d (j, e)
      = if e + d ≥ D then (j + 1, 0) else (j, e + d) := by
  unfold schedStep
  have : (List.replicate K D)[j % K]? = some D := by
    rw [List.getElem?_eq_getElem (by simpa using Nat.mod_lt _ hK)]
    simp [List.getElem_replicate]
  simp only [List.length_replicate]
  rw [this]

theorem schedIter_inner (K : ℕ) (hK : 0 < K) (d D : ℚ) (m : ℕ)
    (hd : 0 < d) (hm : 0 < m) (hD : D = (m : ℚ) * d) (j : ℕ) :
    ∀ t, t ≤ m → (schedStep (List.replicate K D) d)^[t] (j, 0)
      = if t = m then (j + 1, 0) else (j, (t : ℚ) * d) := by
  intro t
  induction t with
  | zero =>
    intro _
    rw [if_neg (by omega : ¬ 0 = m)]
    simp
  | succ n ih =>
    intro hle
    have hn : n < m := Nat.lt_of_succ_le hle
    rw [Function.iterate_succ_apply', ih (Nat.le_of_lt hn),
      if_neg hn.ne, schedStep_replicate K hK D d]
    by_cases hnm : n + 1 = m
    · rw [if_pos, if_pos hnm]
      rw [hD, ← hnm]
      push_cast
      nlinarith
    · rw [if_neg, if_neg hnm]
      · push_cast
        ring_nf
      · rw [hD]
        have h1 : n + 1 < m := Nat.lt_of_le_of_ne hle hnm
        intro hcon
        have : ((n : ℚ) + 1) * d ≥ (m : ℚ) * d := by linarith
        have hml : ((n : ℚ) + 1) < (m : ℚ) := by exact_mod_cast h1
        nlinarith

theorem schedIter_block (K : ℕ) (hK : 0 < K) (d D : ℚ) (m : ℕ)
    (hd : 0 < d) (hm : 0 < m) (hD : D = (m : ℚ) * d) (j : ℕ) :
    (schedStep (List.replicate K D) d)^[m] (j, 0) = (j + 1, 0) := by
  have := schedIter_inner K hK d D m hd hm hD j m (le_refl m)
  rwa [if_pos rfl] at this

theorem schedIter_outer (K : ℕ) (hK : 0 < K) (d D : ℚ) (m : ℕ)
    (hd : 0 < d) (hm : 0 < m) (hD : D = (m : ℚ) * d) :
    ∀ (n j : ℕ), ((schedStep (List.replicate K D) d)^[m])^[n] (j, 0)
      = (j + n, 0) := by
  intro n
  induction n with
  | zero => intro j; simp
  | succ i ih =>
    intro j
    rw [Function.iterate_succ_apply', ih j,
      schedIter_block K hK d D m hd hm hD]
    rw [Nat.add_assoc]

/-- C6 — the scheduler invokes the pattern at playlist position
patternIndex modulo the length each tick (first conjunct: the cursor of
updateBoss is schedStep, whose lookup is at index mod length and which
rotates exactly on elapsed ≥ duration, resetting elapsed to 0; second
conjunct: the spawned bullets come from the pattern at that position);
and for a playlist of K patterns of duration D ticked uniformly with
delta d dividing D (D = m·d), after K·m ticks — elapsed time K·D — the
cursor is back at playlist position 0 with patternElapsed = 0 < D. -/
theorem C6_scheduler_rotation :
    (∀ (env : MathEnv) (W now dt : ℚ) (pats : List BossPattern)
       (st : P0.State) (bs : P0.Boss), st.boss = some bs →
       ((P0.updateBoss env W now dt pats st).patternIndex,
        (P0.updateBoss env W now dt pats st).patternElapsed)
         = schedStep (pats.map BossPattern.duration) dt
             (st.patternIndex, st.patternElapsed)) ∧
    (∀ (env : MathEnv) (W now dt : ℚ) (pats : List BossPattern)
       (st : P0.State) (bs : P0.Boss) (hl : 0 < pats.length),
       st.boss = some bs →
       ∃ bs₂, (P0.updateBoss env W now dt pats st).boss = some bs₂ ∧
         bs₂.bullets = bs.bullets ++ P0.convertSpawn env
           ((pats.get ⟨st.patternIndex % pats.length,
               Nat.mod_lt _ hl⟩).spawn
             { bossPos := ⟨W/2 - bs.width/2 + env.sinQ (now/800) * 80
                   + bs.width/2, bs.y + bs.height/2⟩
               playerPos := ⟨st.player.x + st.player.width/2,
                 st.player.y + st.player.height/2⟩
               tick := st.patternElapsed + dt })) ∧
    (∀ (K m : ℕ) (d D : ℚ), 0 < K → 0 < m → 0 < d → D = (m : ℚ) * d →
       ((schedStep (List.replicate K D) d)^[K * m] (0, 0)).1 % K = 0 ∧
       ((schedStep (List.replicate K D) d)^[K * m] (0, 0)).2 = 0 ∧
       ((schedStep (List.replicate K D) d)^[K * m] (0, 0)).2 < D) := by
  refine ⟨P0.updateBoss_cursor, ?_, ?_⟩
  · intro env W now dt pats st bs hl h
    simp only [P0.updateBoss, h]
    rw [dif_pos hl]
    split
    · exact ⟨_, rfl, rfl⟩
    · exact ⟨_, rfl, rfl⟩
  · intro K m d D hK hm hd hD
    have hiter : (schedStep (List.replicate K D) d)^[K * m] (0, 0)
        = (K, 0) := by
      rw [Nat.mul_comm K m, Function.iterate_mul]
      have := schedIter_outer K hK d D m hd hm hD K 0
      simpa using this
    rw [hiter]
    refine ⟨Nat.mod_self K, rfl, ?_⟩
    show (0 : ℚ) < D
    rw [hD]
    have hm' : (0 : ℚ) < (m : ℚ) := by exact_mod_cast hm
    exact mul_pos hm' hd

/-- Witness for C6: a two-pattern playlist with duration 4 ticked at
delta 2 is back at position 0 with elapsed 0 after 4 ticks. -/
theorem C6_scheduler_rotation_witness :
    ((schedStep (List.replicate 2 (4 : ℚ)) 2)^[4] (0, 0)).1 % 2 = 0 ∧
    ((schedStep (List.replicate 2 (4 : ℚ)) 2)^[4] (0, 0)).2 < 4 := by
  have h := C6_scheduler_rotation.2.2 2 2 2 4 (by norm_num) (by norm_num)
    (by norm_num) (by norm_num)
  exact ⟨h.1, h.2.2⟩

/-! ## C9: empty playlist at tick time -/

def c9Boss : P0.Boss :=
  { x := 152, y := 40, width := 96, height := 96, health := 1000,
    maxHealth := 1000, bullets := [] }

def c9State : P0.State :=
  { gameState :=
      { isRunning := true, isPaused := false, score := 0, lives := 3,
        level := 1 }
    player :=
      { x := 100, y := 100, width := 32, height := 40, speed := 5,
        bullets := [], lastShot := 0, shootCooldown := 150 }
    enemies := []
    boss := some c9Boss
    particles := []
    invulnerableUntil := 0
    patternIndex := 5
    patternElapsed := 300
    rng := 0 }

/-- C9 counterexample — a scheduler tick against an empty playlist is not
rejected anywhere: updateBoss with an empty pattern list executes normally
(the elapsed clock still advances, no pattern is invoked, no bullet is
spawned, nothing fails).  There is no construction-time validation in the
source at all, so "reject at construction" does not hold. -/
theorem C9_empty_playlist_tick_executes_eval :
    ((P0.updateBoss envZero 400 0 16 [] c9State).patternIndex = 5) ∧
    ((P0.updateBoss envZero 400 0 16 [] c9State).patternElapsed = 316) ∧
    (∀ bs, (P0.updateBoss envZero 400 0 16 [] c9State).boss = some bs →
       bs.bullets = []) := by
  refine ⟨?_, ?_, ?_⟩
  · norm_num [P0.updateBoss, c9State, c9Boss, envZero]
  · norm_num [P0.updateBoss, c9State, c9Boss, envZero]
  · intro bs h
    simp only [P0.updateBoss, c9State, c9Boss, envZero] at h
    norm_num at h
    rw [← h]

/-- C9 (amended) — An empty playlist is not rejected at construction (no
validation exists); instead every updateBoss tick guards on the playlist
length: with an empty playlist the tick still runs, advancing
patternElapsed by the frame delta, never touching patternIndex, never
invoking a pattern and spawning no bullet.  So a PATTERN is never invoked
against an empty playlist, but the tick itself is silently tolerated. -/
theorem C9_empty_playlist_guarded (env : MathEnv) (W now dt : ℚ)
    (st : P0.State) (pats : List BossPattern) (bs : P0.Boss)
    (hp : pats = []) (hb : st.boss = some bs) :
    ((P0.updateBoss env W now dt pats st).patternIndex
        = st.patternIndex) ∧
    ((P0.updateBoss env W now dt pats st).patternElapsed
        = st.patternElapsed + dt) ∧
    (∃ bs', (P0.updateBoss env W now dt pats st).boss = some bs' ∧
       bs'.bullets = bs.bullets) := by
  subst hp
  simp only [P0.updateBoss, hb]
  rw [dif_neg (by simp)]
  exact ⟨rfl, rfl, _, rfl, rfl⟩

/-- Witness for the amended C9. -/
theorem C9_empty_playlist_guarded_witness :
    ((P0.updateBoss envZero 400 7 16 [] c9State).patternIndex = 5) ∧
    ((P0.updateBoss envZero 400 7 16 [] c9State).patternElapsed
        = 300 + 16) := by
  have h := C9_empty_playlist_guarded envZero 400 7 16 c9State [] c9Boss
    rfl rfl
  exact ⟨h.1, h.2.1⟩

/-! ## part_001 : three-stage boss-succession variant

Bullet, Player, Enemy and Particle interfaces of part_001 are textually
identical to part_000's, and its createExplosion body is identical too, so
those models are shared; GameState gains stage/maxStage and Boss gains the
sprite-sheet animation numerics. -/

namespace P1

structure GameState where
  isRunning : Bool
  isPaused : Bool
  score : ℚ
  lives : ℚ
  level : ℚ
  stage : ℕ
  maxStage : ℕ
deriving DecidableEq, Repr

structure Boss where
  x : ℚ
  y : ℚ
  width : ℚ
  height : ℚ
  health : ℚ
  maxHealth : ℚ
  bullets : List P0.Bullet
  spriteWidth : ℚ
  spriteHeight : ℚ
  frameWidth : ℚ
  frameHeight : ℚ
  currentFrame : ℕ
  animationSpeed : ℚ
  lastFrameTime : ℚ
  totalFrames : ℕ
  framesPerRow : ℕ
deriving DecidableEq, Repr

structure State where
  gameState : GameState
  player : P0.Player
  enemies : List P0.Enemy
  boss : Option Boss
  particles : List P0.Particle
  invulnerableUntil : ℚ
  patternIndex : ℕ
  patternElapsed : ℚ
  rng : ℕ
deriving DecidableEq, Repr

def bossRect (bs : Boss) : Rect := ⟨bs.x, bs.y, bs.width, bs.height⟩

/-- Sprite-sheet layout table of spawnBoss. -/
structure BossConfig where
  spriteWidth : ℚ
  spriteHeight : ℚ
  frameWidth : ℚ
  frameHeight : ℚ
  totalFrames : ℕ
  framesPerRow : ℕ
deriving DecidableEq, Repr

def healthValues : List ℚ := [1000, 1500, 2000]

def bossConfigs : List BossConfig :=
  [⟨273, 138, 68, 69, 8, 4⟩, ⟨271, 135, 68, 67, 8, 4⟩,
   ⟨273, 70, 68, 70, 4, 4⟩]

/-- spawnBoss of part_001: a fresh boss at top center with the stage's
configured health (health = maxHealth), an empty bullet list, and the
pattern cursor reset to patternIndex = 0, patternElapsed = 0.  (A stage
outside 1..3 would read undefined in JS; every call site passes 1..3, the
default value stands in for the unreachable out-of-range read.) -/
def spawnBoss (W : ℚ) (stage : ℕ) (st : State) : State :=
  let config := bossConfigs.getD (stage - 1) ⟨0, 0, 0, 0, 0, 0⟩
  { st with
    boss := some
      { x := W/2 - 48, y := 40, width := 96, height := 96
        health := healthValues.getD (stage - 1) 0
        maxHealth := healthValues.getD (stage - 1) 0
        bullets := []
        spriteWidth := config.spriteWidth
        spriteHeight := config.spriteHeight
        frameWidth := config.frameWidth
        frameHeight := config.frameHeight
        currentFrame := 0
        animationSpeed := 150
        lastFrameTime := 0
        totalFrames := config.totalFrames
        framesPerRow := config.framesPerRow }
    patternIndex := 0
    patternElapsed := 0 }

/-- Body of the player.bullets.forEach callback of part_001's
updateCollisions (player bullets vs the boss box): splice the bullet,
health -= 2; on health ≤ 0 explode, award 1000 points and a bonus life,
advance the stage, and either spawn the next boss immediately (stage ≤
maxStage) or drop the boss and end the run in victory. -/
def playerBulletVsBossStep (env : MathEnv) (W : ℚ) (k : ℕ) (st : State) :
    State :=
  match st.boss with
  | none => st
  | some bs =>
    match st.player.bullets[k]? with
    | none => st
    | some b =>
      if checkCollision (P0.bulletRect b) (bossRect bs) then
        let bs1 := { bs with health := bs.health - 2 }
        let st1 := { st with
          player := { st.player with
            bullets := st.player.bullets.eraseIdx k }
          boss := some bs1 }
        if bs1.health ≤ (0 : ℚ) then
          let pr := P0.createExplosion env (bs1.x + bs1.width/2)
            (bs1.y + bs1.height/2) st1.rng st1.particles
          let st2 := { st1 with
            particles := pr.1
            rng := pr.2
            gameState := { st1.gameState with
              score := st1.gameState.score + 1000
              lives := st1.gameState.lives + 1
              stage := st1.gameState.stage + 1 } }
          if st2.gameState.stage ≤ st2.gameState.maxStage then
            spawnBoss W st2.gameState.stage st2
          else
            { st2 with
              boss := none
              gameState := { st2.gameState with isRunning := false } }
        else st1
      else st

def collPlayerBulletsVsBossAux (env : MathEnv) (W : ℚ) :
    ℕ → ℕ → State → State
  | 0, _, st => st
  | fuel+1, k, st =>
    collPlayerBulletsVsBossAux env W fuel (k+1)
      (if k < st.player.bullets.length
       then playerBulletVsBossStep env W k st else st)

/-- The player-bullets-vs-boss block of part_001's updateCollisions. -/
def collPlayerBulletsVsBoss (env : MathEnv) (W : ℚ) (st : State) : State :=
  match st.boss with
  | none => st
  | some _ => collPlayerBulletsVsBossAux env W st.player.bullets.length 0 st

end P1

/-! ## C3 / C10: boss succession in part_001 -/

/-- C3 — When a player-bullet hit brings the boss's health to 0 or below:
with further stages remaining (stage < maxStage) the run keeps its running
flag, lives grows by the configured bonus (+1), score by the boss-kill
bonus (+1000), the stage advances, and the next boss is spawned
immediately in the same frame at its full configured health (health =
maxHealth = the stage entry of healthValues) with patternIndex = 0 and
patternElapsed = 0; with no stage remaining the boss is dropped and the
run ends in Victory (isRunning = false). -/
theorem C3_boss_succession (env : MathEnv) (W : ℚ) (k : ℕ)
    (st : P1.State) (bs : P1.Boss) (b : P0.Bullet)
    (hb : st.boss = some bs) (hbk : st.player.bullets[k]? = some b)
    (hover : checkCollision (P0.bulletRect b) (P1.bossRect bs) = true)
    (hdead : bs.health - 2 ≤ 0) :
    (st.gameState.stage < st.gameState.maxStage →
      ((P1.playerBulletVsBossStep env W k st).gameState.isRunning
          = st.gameState.isRunning) ∧
      ((P1.playerBulletVsBossStep env W k st).gameState.lives
          = st.gameState.lives + 1) ∧
      ((P1.playerBulletVsBossStep env W k st).gameState.score
          = st.gameState.score + 1000) ∧
      ((P1.playerBulletVsBossStep env W k st).gameState.stage
          = st.gameState.stage + 1) ∧
      (∃ bs', (P1.playerBulletVsBossStep env W k st).boss = some bs' ∧
         bs'.health = bs'.maxHealth ∧
         bs'.health = P1.healthValues.getD (st.gameState.stage + 1 - 1) 0) ∧
      ((P1.playerBulletVsBossStep env W k st).patternIndex = 0) ∧
      ((P1.playerBulletVsBossStep env W k st).patternElapsed = 0)) ∧
    (¬ st.gameState.stage < st.gameState.maxStage →
      ((P1.playerBulletVsBossStep env W k st).boss = none) ∧
      ((P1.playerBulletVsBossStep env W k st).gameState.isRunning
          = false)) := by
  unfold P1.playerBulletVsBossStep
  rw [hb]
  try dsimp only
  rw [hbk]
  try dsimp only
  rw [if_pos hover]
  try dsimp only
  rw [if_pos hdead]
  constructor
  · intro hlt
    rw [if_pos (Nat.succ_le_of_lt hlt)]
    unfold P1.spawnBoss
    exact ⟨rfl, rfl, rfl, rfl, ⟨_, rfl, rfl, rfl⟩, rfl, rfl⟩
  · intro hge
    rw [if_neg (by exact fun hc => hge (Nat.lt_of_succ_le hc))]
    exact ⟨rfl, rfl⟩

def c3Bullet : P0.Bullet :=
  { x := 150, y := 60, width := 4, height := 8, speed := 7,
    type := .player, vx := some 0, vy := some (-7) }

def c3Boss : P1.Boss :=
  { x := 152, y := 40, width := 96, height := 96, health := 2,
    maxHealth := 1000, bullets := [], spriteWidth := 273,
    spriteHeight := 138, frameWidth := 68, frameHeight := 69,
    currentFrame := 0, animationSpeed := 150, lastFrameTime := 0,
    totalFrames := 8, framesPerRow := 4 }

def c3State : P1.State :=
  { gameState :=
      { isRunning := true, isPaused := false, score := 500, lives := 5,
        level := 1, stage := 1, maxStage := 3 }
    player :=
      { x := 184, y := 410, width := 32, height := 40, speed := 5,
        bullets := [c3Bullet], lastShot := 0, shootCooldown := 150 }
    enemies := []
    boss := some c3Boss
    particles := []
    invulnerableUntil := 0
    patternIndex := 4
    patternElapsed := 777
    rng := 0 }

/-- Witness for C3: killing the stage-1 boss at 2 health with one hit
leaves the run running, 6 lives, 1500 score, stage 2, a fresh boss at
1500 = maxHealth, and the pattern cursor reset. -/
theorem C3_boss_succession_witness :
    ((P1.playerBulletVsBossStep envZero 400 0 c3State).gameState.lives
        = 6) ∧
    ((P1.playerBulletVsBossStep envZero 400 0 c3State).gameState.score
        = 1500) ∧
    ((P1.playerBulletVsBossStep envZero 400 0 c3State).gameState.isRunning
        = true) ∧
    (∃ bs', (P1.playerBulletVsBossStep envZero 400 0 c3State).boss
        = some bs' ∧ bs'.health = bs'.maxHealth ∧ bs'.health = 1500) ∧
    ((P1.playerBulletVsBossStep envZero 400 0 c3State).patternIndex = 0) ∧
    ((P1.playerBulletVsBossStep envZero 400 0 c3State).patternElapsed
        = 0) := by
  have h := (C3_boss_succession envZero 400 0 c3State c3Boss c3Bullet rfl
    rfl
    (by norm_num [checkCollision, P0.bulletRect, P1.bossRect, c3Bullet,
      c3Boss])
    (by norm_num [c3Boss])).1 (by norm_num [c3State])
  obtain ⟨h1, h2, h3, h4, ⟨bs', hb', hmh, hhv⟩, h5, h6⟩ := h
  refine ⟨?_, ?_, ?_, ⟨bs', hb', hmh, ?_⟩, h5, h6⟩
  · rw [h2]; norm_num [c3State]
  · rw [h3]; norm_num [c3State]
  · rw [h1]; rfl
  · rw [hhv]; norm_num [c3State, P1.healthValues]

/-- C10 — When the defeated boss is replaced by its successor, the old
boss's in-flight bullets are discarded, not transferred: the new boss
starts with an empty bullet list, the player pool only ever shrinks (the
hitting bullet is spliced), the enemy collection is untouched, and no
bullet of the old boss is in the new boss's pool, so they can never hit
the player on a later frame. -/
theorem C10_old_boss_bullets_discarded (env : MathEnv) (W : ℚ) (k : ℕ)
    (st : P1.State) (bs : P1.Boss) (b : P0.Bullet)
    (hb : st.boss = some bs) (hbk : st.player.bullets[k]? = some b)
    (hover : checkCollision (P0.bulletRect b) (P1.bossRect bs) = true)
    (hdead : bs.health - 2 ≤ 0)
    (hlt : st.gameState.stage < st.gameState.maxStage) :
    (∃ bs', (P1.playerBulletVsBossStep env W k st).boss = some bs' ∧
       bs'.bullets = [] ∧
       ∀ ob ∈ bs.bullets, ob ∉ bs'.bullets) ∧
    ((P1.playerBulletVsBossStep env W k st).player.bullets.Sublist
        st.player.bullets) ∧
    ((P1.playerBulletVsBossStep env W k st).enemies = st.enemies) := by
  unfold P1.playerBulletVsBossStep
  rw [hb]
  try dsimp only
  rw [hbk]
  try dsimp only
  rw [if_pos hover]
  try dsimp only
  rw [if_pos hdead, if_pos (Nat.succ_le_of_lt hlt)]
  unfold P1.spawnBoss
  exact ⟨⟨_, rfl, rfl, fun ob _ hmem => (List.not_mem_nil ob) hmem⟩,
    List.eraseIdx_sublist _ _, rfl⟩

def c10Boss : P1.Boss :=
  { c3Boss with bullets := [c1Bullet, { c1Bullet with x := 50 }] }

def c10State : P1.State :=
  { c3State with boss := some c10Boss }

/-- Witness for C10: the succeeding boss spawned after killing a boss that
had two in-flight bullets starts with no bullets at all. -/
theorem C10_old_boss_bullets_discarded_witness :
    (∃ bs', (P1.playerBulletVsBossStep envZero 400 0 c10State).boss
        = some bs' ∧ bs'.bullets = []) ∧
    ((P1.playerBulletVsBossStep envZero 400 0 c10State).enemies
        = c10State.enemies) := by
  have h := C10_old_boss_bullets_discarded envZero 400 0 c10State c10Boss
    c3Bullet rfl rfl
    (by norm_num [checkCollision, P0.bulletRect, P1.bossRect, c3Bullet,
      c10Boss, c3Boss])
    (by norm_num [c10Boss, c3Boss])
    (by norm_num [c10State, c3State])
  obtain ⟨⟨bs', hb', hempty, _⟩, _, henem⟩ := h
  exact ⟨⟨bs', hb', hempty⟩, henem⟩

/-! ## touhou-game.ts : scrolling-shooter variant -/

/-- A JS descending index loop
for (let i = len-1; i >= 0; i--) { mutate arr[i]; if (remove) splice(i,1) }
as used by every bullet pool and the particle pool of touhou-game.ts. -/
def jsReverseFilterMap {α : Type} (f : α → α) (remove : α → Bool) :
    ℕ → List α → List α
  | 0, l => l
  | i+1, l =>
    match l[i]? with
    | none => jsReverseFilterMap f remove i l
    | some a =>
      let a' := f a
      let l' := l.set i a'
      jsReverseFilterMap f remove i (if remove a' then l'.eraseIdx i else l')

def jsReverseUpdate {α : Type} (f : α → α) (remove : α → Bool)
    (l : List α) : List α :=
  jsReverseFilterMap f remove l.length l

namespace TG

/-- Bullet of touhou-game.ts.  The interface declares vx/vy optional, but
updateBullets asserts them non-null and every construction site supplies
both, so they are plain fields here. -/
structure Bullet where
  x : ℚ
  y : ℚ
  width : ℚ
  height : ℚ
  speed : ℚ
  type : P0.BulletOwner
  bulletType : ℕ
  vx : ℚ
  vy : ℚ
deriving DecidableEq, Repr

structure Player where
  x : ℚ
  y : ℚ
  width : ℚ
  height : ℚ
  speed : ℚ
  bullets : List Bullet
  lastShot : ℚ
  shootCooldown : ℚ
  frameWidth : ℚ := 167
  frameHeight : ℚ := 218
  currentFrame : ℕ := 0
deriving DecidableEq, Repr

structure Enemy where
  x : ℚ
  y : ℚ
  width : ℚ
  height : ℚ
  vx : ℚ
  vy : ℚ
  health : ℚ
  maxHealth : ℚ
  bullets : List Bullet
  lastShot : ℚ
  shootCooldown : ℚ
  fairyType : ℕ
  currentFrame : ℕ
  animationSpeed : ℚ
  lastFrameTime : ℚ
  patternType : ℕ
  movementType : ℕ
  spawnTime : ℚ
  targetX : Option ℚ := none
  targetY : Option ℚ := none
  isStationary : Bool := false
deriving DecidableEq, Repr

structure Boss where
  x : ℚ
  y : ℚ
  width : ℚ
  height : ℚ
  health : ℚ
  maxHealth : ℚ
  bullets : List Bullet
  lastShot : ℚ
  phase : ℕ
  currentFrame : ℕ
  animationSpeed : ℚ
  lastFrameTime : ℚ
deriving DecidableEq, Repr

structure Particle where
  x : ℚ
  y : ℚ
  vx : ℚ
  vy : ℚ
  life : ℚ
  maxLife : ℚ
  color : String
  size : ℚ
deriving DecidableEq, Repr

structure GameState where
  isRunning : Bool
  isPaused : Bool
  score : ℚ
  lives : ℚ
  scrollY : ℚ
  maxScrollY : ℚ
  bossPhase : Bool
  nextExtend : ℚ
deriving DecidableEq, Repr

/-- The logical movement actions read from the key map (arrow keys and
wasd are the only keys the simulation consults). -/
structure Keys where
  left : Bool
  right : Bool
  up : Bool
  down : Bool
deriving DecidableEq, Repr

structure State where
  gameState : GameState
  player : Player
  enemies : List Enemy
  boss : Option Boss
  particles : List Particle
  orphanBullets : List Bullet
  keys : Keys
  isShootingHeld : Bool
  isSlowHeld : Bool
  enemySpawnTimer : ℚ
  rng : ℕ
deriving DecidableEq, Repr

def playerHitboxRadius : ℚ := 4

def bulletRect (b : Bullet) : Rect := ⟨b.x, b.y, b.width, b.height⟩

def enemyRect (e : Enemy) : Rect := ⟨e.x, e.y, e.width, e.height⟩

def bossRect (bs : Boss) : Rect := ⟨bs.x, bs.y, bs.width, bs.height⟩

/-- updateParticles: move by (vx, vy), decrement life, drop at life ≤ 0. -/
def moveParticle (p : Particle) : Particle :=
  { p with
    x := p.x + p.vx
    y := p.y + p.vy
    life := p.life - 1 }

def updateParticles (st : State) : State :=
  { st with
    particles := jsReverseUpdate moveParticle (fun p => p.life ≤ 0)
                   st.particles }

/-- The player-pool integration step of updateBullets: x += vx, y += vy. -/
def movePlayerBullet (b : Bullet) : Bullet :=
  { b with x := b.x + b.vx, y := b.y + b.vy }

/-- The per-enemy-pool integration step (same text in the source). -/
def moveEnemyBullet (b : Bullet) : Bullet :=
  { b with x := b.x + b.vx, y := b.y + b.vy }

/-- The orphan-pool integration step (same text in the source). -/
def moveOrphanBullet (b : Bullet) : Bullet :=
  { b with x := b.x + b.vx, y := b.y + b.vy }

/-- The boss-pool integration step (same text in the source). -/
def moveBossBullet (b : Bullet) : Bullet :=
  { b with x := b.x + b.vx, y := b.y + b.vy }

/-- The out-of-bounds test of updateBullets — the identical 10-unit margin
expression appears in all four pools. -/
def bulletOut (W H : ℚ) (b : Bullet) : Bool :=
  (b.y < -10) || (b.y > H + 10) || (b.x < -10) || (b.x > W + 10)

/-- updateBullets: every pool is integrated and culled by one descending
splice loop. -/
def updateBullets (W H : ℚ) (st : State) : State :=
  let p1 := { st.player with
              bullets := jsReverseUpdate movePlayerBullet (bulletOut W H)
                           st.player.bullets }
  let st1 := { st with player := p1 }
  let cullEnemy : Enemy → Enemy := fun e =>
    { e with
      bullets := jsReverseUpdate moveEnemyBullet (bulletOut W H)
                   e.bullets }
  let st2 := { st1 with enemies := st1.enemies.map cullEnemy }
  let st3 := { st2 with
               orphanBullets := jsReverseUpdate moveOrphanBullet
                                  (bulletOut W H) st2.orphanBullets }
  match st3.boss with
  | none => st3
  | some bs =>
    let bs1 := { bs with
                 bullets := jsReverseUpdate moveBossBullet (bulletOut W H)
                              bs.bullets }
    { st3 with boss := some bs1 }

/-- playerShoot: three straight bullets plus two homing bullets aimed at
the boss, the first enemy, or straight up. -/
def playerShoot (env : MathEnv) (now : ℚ) (st : State) : State :=
  if now - st.player.lastShot < st.player.shootCooldown then st
  else
    let p := st.player
    let centerX := p.x + p.width/2
    let topY := p.y
    let speed : ℚ := 12
    let straight := (List.range 3).map (fun k =>
      let i : ℚ := (k : ℚ) - 1
      ({ x := centerX - 4 + i * 15, y := topY, width := 8, height := 16
         speed := speed, type := .player, bulletType := 0
         vx := 0, vy := -speed } : Bullet))
    let target : ℚ × ℚ :=
      match st.boss with
      | some bs => (bs.x + bs.width/2, bs.y + bs.height/2)
      | none =>
        match st.enemies with
        | e :: _ => (e.x + e.width/2, e.y + e.height/2)
        | [] => (centerX, 0)
    let leftX := p.x
    let leftY := p.y + p.height/2
    let dxL := target.1 - leftX
    let dyL := target.2 - leftY
    let distL := env.sqrtQ (dxL * dxL + dyL * dyL)
    let leftB : Bullet :=
      { x := leftX - 4, y := leftY, width := 8, height := 16
        speed := speed, type := .player, bulletType := 0
        vx := if distL > 0 then dxL / distL * speed else 0
        vy := if distL > 0 then dyL / distL * speed else -speed }
    let rightX := p.x + p.width
    let rightY := p.y + p.height/2
    let dxR := target.1 - rightX
    let dyR := target.2 - rightY
    let distR := env.sqrtQ (dxR * dxR + dyR * dyR)
    let rightB : Bullet :=
      { x := rightX - 4, y := rightY, width := 8, height := 16
        speed := speed, type := .player, bulletType := 0
        vx := if distR > 0 then dxR / distR * speed else 0
        vy := if distR > 0 then dyR / distR * speed else -speed }
    { st with player := { p with
        bullets := p.bullets ++ straight ++ [leftB, rightB]
        lastShot := now } }

/-- updatePlayer: clamped movement from the key map (slow mode at 40 %),
the sprite frame from the horizontal direction, then hold-to-shoot. -/
def updatePlayer (env : MathEnv) (W H now : ℚ) (st : State) : State :=
  let speed := if st.isSlowHeld then st.player.speed * (4/10)
    else st.player.speed
  let p0 := st.player
  let p1 := if st.keys.left then { p0 with x := max 0 (p0.x - speed) }
    else p0
  let p2 := if st.keys.right then
      { p1 with x := min (W - p1.width) (p1.x + speed) } else p1
  let p3 := if st.keys.up then { p2 with y := max 0 (p2.y - speed) }
    else p2
  let p4 := if st.keys.down then
      { p3 with y := min (H - p3.height) (p3.y + speed) } else p3
  let p5 := { p4 with currentFrame :=
    if st.keys.left ∧ ¬ st.keys.right then 1
    else if st.keys.right ∧ ¬ st.keys.left then 2
    else 0 }
  let st1 := { st with player := p5 }
  if st.isShootingHeld then playerShoot env now st1 else st1

/-- spawnBoss of touhou-game.ts: the Alice boss at 3000 health. -/
def spawnBoss (W now : ℚ) (st : State) : State :=
  { st with
    boss := some { x := W/2 - 25, y := 70, width := 50, height := 70
                   health := 3000, maxHealth := 3000, bullets := []
                   lastShot := now, phase := 0, currentFrame := 0
                   animationSpeed := 200, lastFrameTime := now } }

/-- updateScroll: scroll up by 0.12 until 0, then enter the boss phase
once, spawning the boss (the boss music is presentation). -/
def updateScroll (W now : ℚ) (st : State) : State :=
  if st.gameState.scrollY > 0 then
    let s := st.gameState.scrollY - 12/100
    { st with gameState := { st.gameState with
        scrollY := if s < 0 then 0 else s } }
  else if ¬ st.gameState.bossPhase then
    spawnBoss W now { st with gameState := { st.gameState with
      bossPhase := true } }
  else st

/-- spawnEnemies: every 500 ms of accumulated delta, one fairy with random
spawn side, type, pattern, movement and cooldown; health scales with the
scroll progress.  Math.random results are consumed in source order
(position bucket, x offset, fairy type, pattern type, movement type, the
loiter target only for movement type 4, then the cooldown inside the
literal). -/
def spawnEnemies (env : MathEnv) (W now dt : ℚ) (st : State) : State :=
  let timer := st.enemySpawnTimer + dt
  if timer > 500 then
    let k := st.rng
    let spawnPos := env.randQ k
    let xvx : ℚ × ℚ :=
      if spawnPos < 33/100 then (env.randQ (k+1) * 80, 1/2)
      else if spawnPos < 66/100 then
        (W/2 - 20 + (env.randQ (k+1) - 1/2) * 100, 0)
      else (W - 80 - env.randQ (k+1) * 80, -(1/2))
    let fairyType := (⌊env.randQ (k+2) * 4⌋).toNat
    let patternType := (⌊env.randQ (k+3) * 10⌋).toNat
    let movementType := (⌊env.randQ (k+4) * 6⌋).toNat
    let vy : ℚ :=
      if movementType = 0 then 8/10
      else if movementType = 1 then 5/2
      else if movementType = 4 ∨ movementType = 5 then 6/5
      else 3/2
    let targetY : Option ℚ :=
      if movementType = 4 then some (150 + env.randQ (k+5) * 100) else none
    let cooldownIdx := if movementType = 4 then k+6 else k+5
    let progress := 1 - st.gameState.scrollY / 1920
    let maxHealth : ℚ := (⌊(4 : ℚ) + progress * 20⌋ : ℤ)
    { st with
      enemySpawnTimer := 0
      rng := cooldownIdx + 1
      enemies := st.enemies ++
        [{ x := xvx.1, y := -50, width := 44, height := 44
           vx := xvx.2, vy := vy
           health := maxHealth, maxHealth := maxHealth
           bullets := [], lastShot := now
           shootCooldown := 1200 + env.randQ cooldownIdx * 800
           fairyType := fairyType, currentFrame := 0
           animationSpeed := 150, lastFrameTime := now
           patternType := patternType, movementType := movementType
           spawnTime := now, targetY := targetY }] }
  else { st with enemySpawnTimer := timer }

end TG

namespace TG

/-- enemyShoot: the list of bullets pushed onto the enemy's pool for its
patternType, aimed relative to the player center (pcx, pcy).  Pattern 9
consumes three Math.random results per bullet (angle, speed, type). -/
def enemyShoot (env : MathEnv) (now pcx pcy : ℚ) (rng : ℕ) (e : Enemy) :
    List Bullet × ℕ :=
  let ecx := e.x + e.width/2
  let ecy := e.y + e.height/2
  if e.patternType = 0 then
    ([{ x := ecx - 6, y := ecy, width := 12, height := 12, speed := 5/2
        type := .enemy, bulletType := e.fairyType, vx := 0, vy := 5/2 }],
     rng)
  else if e.patternType = 1 then
    let dx := pcx - ecx
    let dy := pcy - ecy
    let dist := env.sqrtQ (dx * dx + dy * dy)
    ([{ x := ecx - 6, y := ecy, width := 12, height := 12, speed := 5/2
        type := .enemy, bulletType := (e.fairyType + 1) % 8
        vx := dx / dist * (5/2), vy := dy / dist * (5/2) }], rng)
  else if e.patternType = 2 then
    ((List.range 3).map (fun i =>
      let angle := env.piQ / 2 + ((i : ℚ) - 1) * (2/5)
      { x := ecx - 6, y := ecy, width := 12, height := 12, speed := 2
        type := .enemy, bulletType := (e.fairyType + 2) % 8
        vx := env.cosQ angle * 2, vy := env.sinQ angle * 2 }), rng)
  else if e.patternType = 3 then
    ((List.range 5).map (fun i =>
      let angle := env.piQ * 2 / 5 * (i : ℚ)
      { x := ecx - 6, y := ecy, width := 12, height := 12, speed := 9/5
        type := .enemy, bulletType := (e.fairyType + 3) % 8
        vx := env.cosQ angle * (9/5), vy := env.sinQ angle * (9/5) }), rng)
  else if e.patternType = 4 then
    let dx := pcx - ecx
    let dy := pcy - ecy
    ((List.range 2).map (fun i =>
      let angle := env.atan2Q dy dx + ((i : ℚ) - 1/2) * (1/5)
      { x := ecx - 6, y := ecy, width := 12, height := 12, speed := 11/5
        type := .enemy, bulletType := (e.fairyType + 4) % 8
        vx := env.cosQ angle * (11/5), vy := env.sinQ angle * (11/5) }),
     rng)
  else if e.patternType = 5 then
    let dx := pcx - ecx
    let dy := pcy - ecy
    let angle := env.atan2Q dy dx
    ((List.range 4).map (fun i =>
      { x := ecx - 6 + env.cosQ angle * (i : ℚ) * 15
        y := ecy - 6 + env.sinQ angle * (i : ℚ) * 15
        width := 12, height := 12, speed := 3
        type := .enemy, bulletType := (e.fairyType + 5) % 8
        vx := env.cosQ angle * 3, vy := env.sinQ angle * 3 }), rng)
  else if e.patternType = 6 then
    ((List.range 8).map (fun i =>
      let angle := env.piQ * 2 / 8 * (i : ℚ) + now / 1000
      { x := ecx - 6, y := ecy - 6, width := 12, height := 12, speed := 3/2
        type := .enemy, bulletType := (e.fairyType + 6) % 8
        vx := env.cosQ angle * (3/2), vy := env.sinQ angle * (3/2) }), rng)
  else if e.patternType = 7 then
    ((List.range 5).map (fun i =>
      let angle := env.piQ / 2 + ((i : ℚ) - 2) * (1/5) +
        env.sinQ (now / 200 + (i : ℚ)) * (1/2)
      { x := ecx - 6, y := ecy - 6, width := 12, height := 12, speed := 2
        type := .enemy, bulletType := (e.fairyType + 7) % 8
        vx := env.cosQ angle * 2, vy := env.sinQ angle * 2 }), rng)
  else if e.patternType = 8 then
    ((List.range 4).map (fun i =>
      let angle := env.piQ / 2 * (i : ℚ)
      { x := ecx - 6, y := ecy - 6, width := 12, height := 12, speed := 5/2
        type := .enemy, bulletType := e.fairyType % 8
        vx := env.cosQ angle * (5/2), vy := env.sinQ angle * (5/2) }), rng)
  else
    ((List.range 6).map (fun i =>
      let kk := rng + 3 * i
      let angle := env.randQ kk * env.piQ * 2
      let speed := 3/2 + env.randQ (kk+1) * (3/2)
      { x := ecx - 6, y := ecy - 6, width := 12, height := 12
        speed := speed, type := .enemy
        bulletType := (⌊env.randQ (kk+2) * 8⌋).toNat
        vx := env.cosQ angle * speed, vy := env.sinQ angle * speed }),
     rng + 18)

/-- The movement-pattern switch of updateEnemies; timeAlive is the Date
delta since spawn. -/
def moveEnemy (env : MathEnv) (now : ℚ) (e : Enemy) : Enemy :=
  let timeAlive := now - e.spawnTime
  if e.movementType = 0 then
    { e with x := e.x + e.vx, y := e.y + e.vy }
  else if e.movementType = 1 then
    { e with y := e.y + e.vy }
  else if e.movementType = 2 then
    { e with x := e.x + env.sinQ (timeAlive/500) * 2, y := e.y + e.vy }
  else if e.movementType = 3 then
    { e with x := e.x + env.sinQ (timeAlive/200) * 3, y := e.y + e.vy }
  else if e.movementType = 4 then
    -- `if (enemy.targetY && enemy.y < enemy.targetY)` : a present, nonzero
    -- targetY above the enemy keeps it descending; otherwise circle.
    match e.targetY with
    | some t =>
      if t ≠ 0 ∧ e.y < t then { e with y := e.y + e.vy }
      else
        { e with
          isStationary := true
          x := e.x + env.cosQ (timeAlive/300) * 2
          y := e.y + env.sinQ (timeAlive/300) * 2 }
    | none =>
      { e with
        isStationary := true
        x := e.x + env.cosQ (timeAlive/300) * 2
        y := e.y + env.sinQ (timeAlive/300) * 2 }
  else
    if timeAlive < 1000 then { e with y := e.y + e.vy }
    else
      { e with
        isStationary := true
        x := e.x + env.cosQ (timeAlive/400) * (3/2)
        y := e.y + env.sinQ (timeAlive/400) * (3/2) }

def animEnemy (now : ℚ) (e : Enemy) : Enemy :=
  if now - e.lastFrameTime > e.animationSpeed then
    { e with currentFrame := (e.currentFrame + 1) % 4, lastFrameTime := now }
  else e

/-- The shoot step of updateEnemies: fire when the cooldown elapsed,
stamping lastShot. -/
def shootEnemy (env : MathEnv) (now pcx pcy : ℚ) (rng : ℕ) (e : Enemy) :
    Enemy × ℕ :=
  if now - e.lastShot > e.shootCooldown then
    let br := enemyShoot env now pcx pcy rng e
    ({ e with bullets := e.bullets ++ br.1, lastShot := now }, br.2)
  else (e, rng)

/-- The descending loop of updateEnemies: per enemy, move, animate, shoot,
then remove when below the playfield (y > H + 50) or dead (health ≤ 0); a
dead enemy's bullets are pushed into the orphan pool and 100 points are
awarded. -/
def updateEnemiesAux (env : MathEnv) (H now pcx pcy : ℚ) :
    ℕ → State → State
  | 0, st => st
  | i+1, st =>
    match st.enemies[i]? with
    | none => updateEnemiesAux env H now pcx pcy i st
    | some e =>
      let e1 := moveEnemy env now e
      let e2 := animEnemy now e1
      let sr := shootEnemy env now pcx pcy st.rng e2
      let st1 := { st with enemies := st.enemies.set i sr.1, rng := sr.2 }
      let st2 :=
        if sr.1.y > H + 50 ∨ sr.1.health ≤ 0 then
          let st15 :=
            if sr.1.health ≤ 0 then
              { st1 with
                orphanBullets := st1.orphanBullets ++ sr.1.bullets
                gameState := { st1.gameState with
                  score := st1.gameState.score + 100 } }
            else st1
          { st15 with enemies := st15.enemies.eraseIdx i }
        else st1
      updateEnemiesAux env H now pcx pcy i st2

def updateEnemies (env : MathEnv) (H now : ℚ) (st : State) : State :=
  updateEnemiesAux env H now (st.player.x + st.player.width/2)
    (st.player.y + st.player.height/2) st.enemies.length st

end TG

namespace TG

/-- bossShoot: the bullets pushed for the pattern cycle
floor(now / 2500) rem 12, relative to the boss and player centers.
Cycles 5 and 9 consume Math.random results in source order. -/
def bossShoot (env : MathEnv) (now pcx pcy : ℚ) (rng : ℕ) (bs : Boss) :
    List Bullet × ℕ :=
  let bcx := bs.x + bs.width/2
  let bcy := bs.y + bs.height/2
  let cyc := Int.tmod ⌊now / 2500⌋ 12
  if cyc = 0 then
    ((List.range 12).map (fun i =>
      let angle := env.piQ * 2 / 12 * (i : ℚ) + now / 500
      { x := bcx - 6, y := bcy - 6, width := 12, height := 12, speed := 6
        type := .enemy, bulletType := 0
        vx := env.cosQ angle * 6, vy := env.sinQ angle * 6 }), rng)
  else if cyc = 1 then
    let so := now / 100
    ((List.range 12).flatMap (fun i =>
      let angle1 := env.piQ * 2 / 12 * (i : ℚ) + so
      let angle2 := env.piQ * 2 / 12 * (i : ℚ) - so
      [{ x := bcx - 6, y := bcy - 6, width := 12, height := 12, speed := 3
         type := .enemy, bulletType := 1
         vx := env.cosQ angle1 * 3, vy := env.sinQ angle1 * 3 },
       { x := bcx - 6, y := bcy - 6, width := 12, height := 12, speed := 3
         type := .enemy, bulletType := 2
         vx := env.cosQ angle2 * 3, vy := env.sinQ angle2 * 3 }]), rng)
  else if cyc = 2 then
    let angle := env.atan2Q (pcy - bcy) (pcx - bcx)
    ((List.range 5).map (fun i =>
      let oa := angle + ((i : ℚ) - 2) * (15/100)
      { x := bcx - 6, y := bcy - 6, width := 12, height := 12, speed := 4
        type := .enemy, bulletType := 3
        vx := env.cosQ oa * 4, vy := env.sinQ oa * 4 }), rng)
  else if cyc = 3 then
    ((List.range 8).flatMap (fun i =>
      let angle := env.piQ * 2 / 8 * (i : ℚ)
      (List.range 3).map (fun j =>
        { x := bcx - 6 + env.cosQ angle * (j : ℚ) * 20
          y := bcy - 6 + env.sinQ angle * (j : ℚ) * 20
          width := 12, height := 12, speed := 14/5
          type := .enemy, bulletType := 4
          vx := env.cosQ angle * (14/5), vy := env.sinQ angle * (14/5) })),
     rng)
  else if cyc = 4 then
    ((List.range 2).flatMap (fun layer =>
      (List.range 12).map (fun i =>
        let angle := env.piQ * 2 / 12 * (i : ℚ) + now / 400 +
          (layer : ℚ) * env.piQ / 12
        let speed := 11/5 + (layer : ℚ) * (3/5)
        { x := bcx - 6, y := bcy - 6, width := 12, height := 12
          speed := speed, type := .enemy
          bulletType := if layer = 0 then 5 else 6
          vx := env.cosQ angle * speed, vy := env.sinQ angle * speed })),
     rng)
  else if cyc = 5 then
    let time := now / 300
    ((List.range 10).map (fun (i : ℕ) =>
      let angle := env.piQ * 2 / 10 * (i : ℚ) + time
      let speed := 2 + env.sinQ (time + (i : ℚ)) * (3/2)
      { x := bcx - 6, y := bcy - 6, width := 12, height := 12
        speed := speed, type := .enemy
        bulletType := if i % 2 = 0 then 7
          else (⌊env.randQ (rng + i / 2) * 7⌋).toNat
        vx := env.cosQ angle * speed, vy := env.sinQ angle * speed }),
     rng + 5)
  else if cyc = 6 then
    ((List.range 12).map (fun (i : ℕ) =>
      let angle := env.piQ * 2 / 12 * (i : ℚ)
      { x := bcx - 6, y := bcy - 6, width := 12, height := 12, speed := 2
        type := .enemy, bulletType := i % 8
        vx := env.cosQ angle * 2, vy := env.sinQ angle * 2 }), rng)
  else if cyc = 7 then
    ((List.range 7).map (fun (i : ℕ) =>
      let baseAngle := env.atan2Q (pcy - bcy) (pcx - bcx)
      let angle := baseAngle + ((i : ℚ) - 3) * (15/100)
      { x := bcx - 6, y := bcy - 6, width := 12, height := 12, speed := 3
        type := .enemy, bulletType := (i + 1) % 8
        vx := env.cosQ angle * 3, vy := env.sinQ angle * 3 }), rng)
  else if cyc = 8 then
    ((List.range 3).flatMap (fun layer =>
      (List.range 10).map (fun i =>
        let offset := now / 200 + (layer : ℚ) * (env.piQ * 2 / 3)
        let angle := env.piQ * 2 / 10 * (i : ℚ) + offset
        let speed := 2 + (layer : ℚ) * (1/2)
        { x := bcx - 6, y := bcy - 6, width := 12, height := 12
          speed := speed, type := .enemy, bulletType := (layer + 2) % 8
          vx := env.cosQ angle * speed, vy := env.sinQ angle * speed })),
     rng)
  else if cyc = 9 then
    ((List.range 15).map (fun i =>
      let kk := rng + 3 * i
      let angle := env.randQ kk * env.piQ * 2
      let speed := 3/2 + env.randQ (kk+1) * 2
      { x := bcx - 6, y := bcy - 6, width := 12, height := 12
        speed := speed, type := .enemy
        bulletType := (⌊env.randQ (kk+2) * 8⌋).toNat
        vx := env.cosQ angle * speed, vy := env.sinQ angle * speed }),
     rng + 45)
  else if cyc = 10 then
    let time := now / 1000
    ((List.range 4).flatMap (fun ring =>
      (List.range 12).map (fun i =>
        let angle := env.piQ * 2 / 12 * (i : ℚ) + time +
          (ring : ℚ) * env.piQ / 8
        let speed := 9/5 + (ring : ℚ) * (2/5)
        { x := bcx - 6, y := bcy - 6, width := 12, height := 12
          speed := speed, type := .enemy, bulletType := ring % 8
          vx := env.cosQ angle * speed, vy := env.sinQ angle * speed })),
     rng)
  else
    let time := now / 100
    ((List.range 3).flatMap (fun (arm : ℕ) =>
      (List.range 10).map (fun (i : ℕ) =>
        let spiralAngle := env.piQ * 2 / 3 * (arm : ℚ) + (i : ℚ) * (3/10)
          + time
        { x := bcx - 6, y := bcy - 6, width := 12, height := 12
          speed := 5/2, type := .enemy, bulletType := (arm + i) % 8
          vx := env.cosQ spiralAngle * (5/2)
          vy := env.sinQ spiralAngle * (5/2) })), rng)

/-- updateBoss: the four-way movement cycle, bounds clamp, animation,
the 400 ms shoot timer, and the victory check on health ≤ 0 (the boss is
not removed; the run just stops). -/
def updateBoss (env : MathEnv) (W now : ℚ) (st : State) : State :=
  match st.boss with
  | none => st
  | some bs =>
    let time := now / 1000
    let cycle := Int.tmod ⌊now / 4000⌋ 4
    let bs1 :=
      if cycle = 0 then { bs with x := bs.x + env.sinQ time * 2 }
      else if cycle = 1 then
        let phase := jsMod time 3 / 3
        if phase < 33/100 then { bs with x := bs.x - 3/2 }
        else if phase < 66/100 then { bs with x := bs.x + 3/2 }
        else { bs with x := bs.x + (W/2 - bs.width/2 - bs.x) * (5/100) }
      else if cycle = 2 then
        { bs with y := 70 + env.sinQ (time * 2) * 30 }
      else
        let phase := ⌊jsMod time 4 / 1⌋
        if phase = 0 then { bs with x := bs.x + 2 }
        else if phase = 1 then { bs with y := bs.y + 2 * (1/2) }
        else if phase = 2 then { bs with x := bs.x - 2 }
        else { bs with y := bs.y - 2 * (1/2) }
    let bs2 := { bs1 with
      x := max 0 (min (W - bs1.width) bs1.x)
      y := max 50 (min 200 bs1.y) }
    let bs3 :=
      if now - bs2.lastFrameTime > bs2.animationSpeed then
        { bs2 with
          currentFrame := (bs2.currentFrame + 1) % 4
          lastFrameTime := now }
      else bs2
    let pcx := st.player.x + st.player.width/2
    let pcy := st.player.y + st.player.height/2
    let sr :=
      if now - bs3.lastShot > 400 then
        let bb := bossShoot env now pcx pcy st.rng bs3
        ({ bs3 with bullets := bs3.bullets ++ bb.1, lastShot := now },
         bb.2)
      else (bs3, st.rng)
    let st1 := { st with boss := some sr.1, rng := sr.2 }
    if sr.1.health ≤ 0 then
      { st1 with gameState := { st1.gameState with
          score := st1.gameState.score + 10000
          isRunning := false } }
    else st1

/-- createBulletClearEffect: three flash particles with random direction
and speed (two Math.random results each). -/
def createBulletClearEffect (env : MathEnv) (x y : ℚ)
    (acc : List Particle × ℕ) : List Particle × ℕ :=
  (acc.1 ++ (List.range 3).map (fun i =>
    let kk := acc.2 + 2 * i
    let angle := env.randQ kk * env.piQ * 2
    let speed := env.randQ (kk+1) * 2 + 1
    { x := x, y := y
      vx := env.cosQ angle * speed, vy := env.sinQ angle * speed
      life := 20, maxLife := 20, color := "#ffffff", size := 3 }),
   acc.2 + 6)

/-- Clear effects for every bullet of a list, threading particle list and
random cursor. -/
def clearFxList (env : MathEnv) (bullets : List Bullet)
    (acc : List Particle × ℕ) : List Particle × ℕ :=
  bullets.foldl (fun pr b =>
    createBulletClearEffect env (b.x + b.width/2) (b.y + b.height/2) pr)
    acc

/-- playerHit: one life lost unconditionally — touhou-game.ts consults no
invulnerability deadline — then ALL hostile bullets (every enemy pool, the
orphan pool, the boss pool) are cleared with flash effects, and the run
ends at 0 lives.  (The interleaved per-enemy effect-then-clear loop of the
source equals effects-then-clears because the effects of one enemy do not
read another's bullets.) -/
def playerHit (env : MathEnv) (st : State) : State :=
  let gs1 := { st.gameState with lives := st.gameState.lives - 1 }
  let pr1 := st.enemies.foldl (fun pr e => clearFxList env e.bullets pr)
    (st.particles, st.rng)
  let enemies1 := st.enemies.map (fun e => { e with bullets := [] })
  let pr2 := clearFxList env st.orphanBullets pr1
  let pr3 := match st.boss with
    | some bs => clearFxList env bs.bullets pr2
    | none => pr2
  let boss1 := match st.boss with
    | some bs => some { bs with bullets := [] }
    | none => none
  let st1 := { st with
    gameState := gs1
    enemies := enemies1
    orphanBullets := []
    particles := pr3.1
    rng := pr3.2
    boss := boss1 }
  if st1.gameState.lives ≤ (0 : ℚ) then
    { st1 with gameState := { st1.gameState with isRunning := false } }
  else st1

/-- The circular hostile-vs-player test as written in the enemy-bullet
loop of checkCollisions: distance from bullet center to player center
below hitbox radius + half bullet width. -/
def enemyBulletHitsPlayer (env : MathEnv) (b : Bullet) (pcx pcy : ℚ) :
    Bool :=
  let dx := b.x + b.width/2 - pcx
  let dy := b.y + b.height/2 - pcy
  env.sqrtQ (dx * dx + dy * dy) < playerHitboxRadius + b.width/2

/-- The same test as written in the orphan-bullet loop. -/
def orphanBulletHitsPlayer (env : MathEnv) (b : Bullet) (pcx pcy : ℚ) :
    Bool :=
  let dx := b.x + b.width/2 - pcx
  let dy := b.y + b.height/2 - pcy
  env.sqrtQ (dx * dx + dy * dy) < playerHitboxRadius + b.width/2

/-- The same test as written in the boss-bullet loop. -/
def bossBulletHitsPlayer (env : MathEnv) (b : Bullet) (pcx pcy : ℚ) :
    Bool :=
  let dx := b.x + b.width/2 - pcx
  let dy := b.y + b.height/2 - pcy
  env.sqrtQ (dx * dx + dy * dy) < playerHitboxRadius + b.width/2

/-- First checkCollisions pass: for-of over the player bullets; the first
overlapped enemy (inner break) loses one health and the bullet is spliced
at indexOf — the for-of iterator then skips the element shifted into the
removed slot, exactly as in JS. -/
def collPlayerVsEnemiesAux : ℕ → ℕ → State → State
  | 0, _, st => st
  | fuel+1, idx, st =>
    match st.player.bullets[idx]? with
    | none => st
    | some b =>
      let st' :=
        match st.enemies.findIdx? (fun e =>
          checkCollision (bulletRect b) (enemyRect e)) with
        | some j =>
          match st.enemies[j]? with
          | some e =>
            { st with
              enemies := st.enemies.set j { e with health := e.health - 1 }
              player := { st.player with
                bullets := jsSplice1 st.player.bullets
                  (jsIndexOf st.player.bullets b) } }
          | none => st
        | none => st
      collPlayerVsEnemiesAux fuel (idx+1) st'

def collPlayerVsEnemies (st : State) : State :=
  collPlayerVsEnemiesAux st.player.bullets.length 0 st

/-- Second pass: the first player bullet overlapping the boss box (break
after the hit) takes one health and is spliced. -/
def collPlayerVsBoss (st : State) : State :=
  match st.boss with
  | none => st
  | some bs =>
    match st.player.bullets.findIdx? (fun b =>
      checkCollision (bulletRect b) (bossRect bs)) with
    | some i =>
      match st.player.bullets[i]? with
      | some b =>
        { st with
          boss := some { bs with health := bs.health - 1 }
          player := { st.player with
            bullets := jsSplice1 st.player.bullets
              (jsIndexOf st.player.bullets b) } }
      | none => st
    | none => st

/-- Third pass: per enemy (in order), the first of its bullets inside the
player hit radius triggers playerHit, then the splice hits the already
cleared pool (a no-op), and the inner loop breaks. -/
def collEnemyBulletsVsPlayerAux (env : MathEnv) (pcx pcy : ℚ) :
    ℕ → ℕ → State → State
  | 0, _, st => st
  | fuel+1, i, st =>
    match st.enemies[i]? with
    | none => st
    | some e =>
      let st' :=
        match e.bullets.findIdx? (fun b =>
          enemyBulletHitsPlayer env b pcx pcy) with
        | some j =>
          match e.bullets[j]? with
          | some b =>
            let st1 := playerHit env st
            match st1.enemies[i]? with
            | some e1 =>
              { st1 with enemies := st1.enemies.set i { e1 with
                  bullets := jsSplice1 e1.bullets
                    (jsIndexOf e1.bullets b) } }
            | none => st1
          | none => st
        | none => st
      collEnemyBulletsVsPlayerAux env pcx pcy fuel (i+1) st'

def collEnemyBulletsVsPlayer (env : MathEnv) (pcx pcy : ℚ) (st : State) :
    State :=
  collEnemyBulletsVsPlayerAux env pcx pcy st.enemies.length 0 st

/-- Fourth pass: descending over the orphan pool, breaking on the first
hit (playerHit, then a splice on the emptied pool). -/
def collOrphansVsPlayerAux (env : MathEnv) (pcx pcy : ℚ) :
    ℕ → State → State
  | 0, st => st
  | i+1, st =>
    match st.orphanBullets[i]? with
    | none => collOrphansVsPlayerAux env pcx pcy i st
    | some b =>
      if orphanBulletHitsPlayer env b pcx pcy then
        let st1 := playerHit env st
        { st1 with orphanBullets := jsSplice1 st1.orphanBullets (i : ℤ) }
      else collOrphansVsPlayerAux env pcx pcy i st

def collOrphansVsPlayer (env : MathEnv) (pcx pcy : ℚ) (st : State) :
    State :=
  collOrphansVsPlayerAux env pcx pcy st.orphanBullets.length st

/-- Fifth pass: the first boss bullet inside the player hit radius
triggers playerHit (break afterwards). -/
def collBossVsPlayer (env : MathEnv) (pcx pcy : ℚ) (st : State) : State :=
  match st.boss with
  | none => st
  | some bs =>
    match bs.bullets.findIdx? (fun b =>
      bossBulletHitsPlayer env b pcx pcy) with
    | some i =>
      match bs.bullets[i]? with
      | some b =>
        let st1 := playerHit env st
        match st1.boss with
        | some bs1 =>
          { st1 with boss := some { bs1 with
              bullets := jsSplice1 bs1.bullets
                (jsIndexOf bs1.bullets b) } }
        | none => st1
      | none => st
    | none => st

/-- checkCollisions: the five passes in source order, against the player
center read once at entry. -/
def checkCollisions (env : MathEnv) (st : State) : State :=
  let pcx := st.player.x + st.player.width/2
  let pcy := st.player.y + st.player.height/2
  collBossVsPlayer env pcx pcy
    (collOrphansVsPlayer env pcx pcy
      (collEnemyBulletsVsPlayer env pcx pcy
        (collPlayerVsBoss
          (collPlayerVsEnemies st))))

/-- update: one frame of touhou-game.ts, with every Date.now()/
performance.now() read of the frame equal to now. -/
def update (env : MathEnv) (W H now dt : ℚ) (st : State) : State :=
  let st1 := updatePlayer env W H now st
  let st2 := updateBullets W H st1
  let st3 := updateEnemies env H now st2
  let st4 := updateParticles st3
  let st5 :=
    if ¬ st4.gameState.bossPhase then
      spawnEnemies env W now dt (updateScroll W now st4)
    else updateBoss env W now st4
  checkCollisions env st5

end TG

/-! ## C5: bullet kinematics -/

theorem P0.movePlayerBullet_vec (b : P0.Bullet) (vx vy : ℚ)
    (hx : b.vx = some vx) (hy : b.vy = some vy) :
    P0.movePlayerBullet b = { b with x := b.x + vx, y := b.y + vy } := by
  unfold P0.movePlayerBullet
  rw [hx, hy]

theorem P0.moveBossBullet_vec (b : P0.Bullet) (vx vy : ℚ)
    (hx : b.vx = some vx) (hy : b.vy = some vy) :
    P0.moveBossBullet b = { b with x := b.x + vx, y := b.y + vy } := by
  unfold P0.moveBossBullet
  rw [hx, hy]

theorem P0.movePlayerBullet_iter (b : P0.Bullet) (vx vy : ℚ)
    (hx : b.vx = some vx) (hy : b.vy = some vy) : ∀ N : ℕ,
    ((P0.movePlayerBullet)^[N] b).vx = some vx ∧
    ((P0.movePlayerBullet)^[N] b).vy = some vy ∧
    ((P0.movePlayerBullet)^[N] b).x = b.x + N * vx ∧
    ((P0.movePlayerBullet)^[N] b).y = b.y + N * vy := by
  intro N
  induction N with
  | zero => simpa using ⟨hx, hy⟩
  | succ n ih =>
    rw [Function.iterate_succ_apply',
      P0.movePlayerBullet_vec _ _ _ ih.1 ih.2.1]
    refine ⟨ih.1, ih.2.1, ?_, ?_⟩
    · show ((P0.movePlayerBullet)^[n] b).x + vx = b.x + (n + 1 : ℕ) * vx
      rw [ih.2.2.1]
      push_cast
      ring
    · show ((P0.movePlayerBullet)^[n] b).y + vy = b.y + (n + 1 : ℕ) * vy
      rw [ih.2.2.2]
      push_cast
      ring

theorem P0.moveBossBullet_iter (b : P0.Bullet) (vx vy : ℚ)
    (hx : b.vx = some vx) (hy : b.vy = some vy) : ∀ N : ℕ,
    ((P0.moveBossBullet)^[N] b).vx = some vx ∧
    ((P0.moveBossBullet)^[N] b).vy = some vy ∧
    ((P0.moveBossBullet)^[N] b).x = b.x + N * vx ∧
    ((P0.moveBossBullet)^[N] b).y = b.y + N * vy := by
  intro N
  induction N with
  | zero => simpa using ⟨hx, hy⟩
  | succ n ih =>
    rw [Function.iterate_succ_apply',
      P0.moveBossBullet_vec _ _ _ ih.1 ih.2.1]
    refine ⟨ih.1, ih.2.1, ?_, ?_⟩
    · show ((P0.moveBossBullet)^[n] b).x + vx = b.x + (n + 1 : ℕ) * vx
      rw [ih.2.2.1]
      push_cast
      ring
    · show ((P0.moveBossBullet)^[n] b).y + vy = b.y + (n + 1 : ℕ) * vy
      rw [ih.2.2.2]
      push_cast
      ring

theorem TG.moveBullet_iter (b : TG.Bullet) : ∀ N : ℕ,
    ((TG.movePlayerBullet)^[N] b).vx = b.vx ∧
    ((TG.movePlayerBullet)^[N] b).vy = b.vy ∧
    ((TG.movePlayerBullet)^[N] b).x = b.x + N * b.vx ∧
    ((TG.movePlayerBullet)^[N] b).y = b.y + N * b.vy := by
  intro N
  induction N with
  | zero => simp
  | succ n ih =>
    rw [Function.iterate_succ_apply']
    unfold TG.movePlayerBullet
    refine ⟨ih.1, ih.2.1, ?_, ?_⟩
    · show ((TG.movePlayerBullet)^[n] b).x +
        ((TG.movePlayerBullet)^[n] b).vx = b.x + (n + 1 : ℕ) * b.vx
      rw [ih.2.2.1, ih.1]
      push_cast
      ring
    · show ((TG.movePlayerBullet)^[n] b).y +
        ((TG.movePlayerBullet)^[n] b).vy = b.y + (n + 1 : ℕ) * b.vy
      rw [ih.2.2.2, ih.2.1]
      push_cast
      ring

/-- C5 — a bullet carrying a velocity vector advances by exactly N·(vx,vy)
after N integration ticks in every variant (no time scaling, no drift);
a legacy scalar-speed bullet (part_000/part_001) moves along its pool's
canonical axis each tick: the player pool up by speed, the boss (hostile)
pool down by speed. -/
theorem C5_kinematics :
    (∀ (b : P0.Bullet) (vx vy : ℚ), b.vx = some vx → b.vy = some vy →
      ∀ N : ℕ,
      ((P0.movePlayerBullet)^[N] b).x = b.x + N * vx ∧
      ((P0.movePlayerBullet)^[N] b).y = b.y + N * vy ∧
      ((P0.moveBossBullet)^[N] b).x = b.x + N * vx ∧
      ((P0.moveBossBullet)^[N] b).y = b.y + N * vy) ∧
    (∀ b : P0.Bullet, b.vx = none ∨ b.vy = none →
      (P0.movePlayerBullet b).x = b.x ∧
      (P0.movePlayerBullet b).y = b.y - b.speed ∧
      (P0.moveBossBullet b).x = b.x ∧
      (P0.moveBossBullet b).y = b.y + b.speed) ∧
    (∀ (b : TG.Bullet) (N : ℕ),
      ((TG.movePlayerBullet)^[N] b).x = b.x + N * b.vx ∧
      ((TG.movePlayerBullet)^[N] b).y = b.y + N * b.vy) := by
  refine ⟨?_, ?_, ?_⟩
  · intro b vx vy hx hy N
    exact ⟨(P0.movePlayerBullet_iter b vx vy hx hy N).2.2.1,
      (P0.movePlayerBullet_iter b vx vy hx hy N).2.2.2,
      (P0.moveBossBullet_iter b vx vy hx hy N).2.2.1,
      (P0.moveBossBullet_iter b vx vy hx hy N).2.2.2⟩
  · intro b h
    unfold P0.movePlayerBullet P0.moveBossBullet
    rcases hvx : b.vx with _ | v
    · exact ⟨rfl, rfl, rfl, rfl⟩
    · rcases hvy : b.vy with _ | w
      · exact ⟨rfl, rfl, rfl, rfl⟩
      · rcases h with h | h
        · rw [hvx] at h; cases h
        · rw [hvy] at h; cases h
  · intro b N
    exact ⟨(TG.moveBullet_iter b N).2.2.1, (TG.moveBullet_iter b N).2.2.2⟩

/-- Witness for C5: a vector bullet after 3 ticks, a scalar bullet after
one tick. -/
theorem C5_kinematics_witness :
    (((P0.movePlayerBullet)^[3]
        { x := 10, y := 20, width := 4, height := 8, speed := 7
          type := .player, vx := some 2, vy := some (-3) }).x = 16) ∧
    ((P0.moveBossBullet
        { x := 5, y := 6, width := 4, height := 8, speed := 7
          type := .enemy, vx := none, vy := none }).y = 13) := by
  constructor
  · rw [(C5_kinematics.1 _ 2 (-3) rfl rfl 3).1]
    norm_num
  · rw [(C5_kinematics.2.1 _ (Or.inl rfl)).2.2.2]
    norm_num

/-! ## The descending-splice loop is move-then-filter -/

theorem jsReverseFilterMap_append {α : Type} (f : α → α) (r : α → Bool) :
    ∀ (n : ℕ) (l t : List α), n ≤ l.length →
      jsReverseFilterMap f r n (l ++ t) = jsReverseFilterMap f r n l ++ t := by
  intro n
  induction n with
  | zero => intro l t _; rfl
  | succ n ih =>
    intro l t h
    have hn : n < l.length := h
    have hget : l[n]? = some (l.get ⟨n, hn⟩) := List.getElem?_eq_getElem hn
    unfold jsReverseFilterMap
    rw [List.getElem?_append, if_pos hn, hget]
    dsimp only
    rw [List.set_append_left _ _ hn]
    by_cases hr : r (f (l.get ⟨n, hn⟩))
    · rw [if_pos hr, if_pos hr,
        List.eraseIdx_append_of_lt_length (by simpa using hn)]
      exact ih _ t (by simp [List.length_eraseIdx, List.length_set, hn]; omega)
    · rw [if_neg hr, if_neg hr]
      exact ih _ t (by simp only [List.length_set]; omega)

theorem jsReverseUpdate_eq {α : Type} (f : α → α) (r : α → Bool) :
    ∀ l : List α,
      jsReverseUpdate f r l = (l.map f).filter (fun a => ! r a) := by
  intro l
  induction l using List.reverseRecOn with
  | nil => rfl
  | append_singleton l a ih =>
    unfold jsReverseUpdate at ih ⊢
    rw [List.length_append, List.length_singleton]
    unfold jsReverseFilterMap
    rw [List.getElem?_concat_length]
    dsimp only
    rw [show (l ++ [a]).set l.length (f a) = l ++ [f a] by
      rw [List.set_append_right _ _ (le_refl _)]
      simp]
    by_cases hr : r (f a)
    · rw [if_pos hr,
        List.eraseIdx_append_of_length_le (le_refl _)]
      simp only [Nat.sub_self, List.eraseIdx_cons_zero, List.append_nil]
      rw [ih]
      simp [hr]
    · rw [if_neg hr, jsReverseFilterMap_append f r l.length l [f a] (le_refl _),
        ih]
      simp [hr]

/-! ## C7: bullet culling -/

def c7Bullet : P0.Bullet :=
  { x := 100, y := 510, width := 4, height := 8, speed := 7
    type := .player, vx := some 0, vy := some 7 }

def c7State : P0.State :=
  { gameState :=
      { isRunning := true, isPaused := false, score := 0, lives := 3
        level := 1 }
    player :=
      { x := 100, y := 100, width := 32, height := 40, speed := 5
        bullets := [c7Bullet], lastShot := 0, shootCooldown := 150 }
    enemies := [], boss := none, particles := []
    invulnerableUntil := 0, patternIndex := 0, patternElapsed := 0
    rng := 0 }

/-- C7 counterexample — in part_000 the player pool has no bottom cull:
a player bullet carrying a downward velocity vector, sitting below the
playfield (H = 480), is integrated to y = 517 > H + 20 > H + height and
is retained by updateBullets in the very pass the claim says removes it. -/
theorem C7_no_bottom_cull_counterexample :
    (P0.updateBullets 400 480 c7State).player.bullets
      = [{ c7Bullet with y := 517 }] ∧
    (517 : ℚ) > 480 + 20 ∧
    (517 : ℚ) > 480 + c7Bullet.height := by
  refine ⟨?_, by norm_num, by norm_num [c7Bullet]⟩
  norm_num [P0.updateBullets, P0.movePlayerBullet, P0.keepPlayerBullet,
    c7State, c7Bullet]

/-- C7 (amended) — same-pass culling as the code implements it: in
touhou-game.ts every pool's descending splice loop equals integrate-then-
filter on the shared 10-unit four-sided margin, so a bullet whose post-
integration y exceeds H + 10 is removed in that pass and no surviving
bullet of any pool has y > H + 10; in part_000 the hostile boss pool
keeps only bullets with y < H + height, while the player pool filters
only on the top edge and a 20-unit horizontal margin — it has no bottom
cull at all. -/
theorem C7_culling_amended (W H : ℚ) :
    (∀ l : List TG.Bullet,
      jsReverseUpdate TG.movePlayerBullet (TG.bulletOut W H) l
        = (l.map TG.movePlayerBullet).filter
            (fun b => ! TG.bulletOut W H b) ∧
      jsReverseUpdate TG.moveEnemyBullet (TG.bulletOut W H) l
        = (l.map TG.moveEnemyBullet).filter
            (fun b => ! TG.bulletOut W H b) ∧
      jsReverseUpdate TG.moveOrphanBullet (TG.bulletOut W H) l
        = (l.map TG.moveOrphanBullet).filter
            (fun b => ! TG.bulletOut W H b) ∧
      jsReverseUpdate TG.moveBossBullet (TG.bulletOut W H) l
        = (l.map TG.moveBossBullet).filter
            (fun b => ! TG.bulletOut W H b)) ∧
    (∀ (l : List TG.Bullet) (f : TG.Bullet → TG.Bullet) (b : TG.Bullet),
      b ∈ jsReverseUpdate f (TG.bulletOut W H) l → ¬ b.y > H + 10) ∧
    (∀ (st : P0.State) (bs : P0.Boss),
      (P0.updateBullets W H st).boss = some bs →
      ∀ b ∈ bs.bullets, b.y < H + b.height) ∧
    (∀ st : P0.State,
      (P0.updateBullets W H st).player.bullets
        = (st.player.bullets.map P0.movePlayerBullet).filter
            (P0.keepPlayerBullet W)) := by
  refine ⟨?_, ?_, ?_, ?_⟩
  · intro l
    exact ⟨jsReverseUpdate_eq _ _ l, jsReverseUpdate_eq _ _ l,
      jsReverseUpdate_eq _ _ l, jsReverseUpdate_eq _ _ l⟩
  · intro l f b hb
    rw [jsReverseUpdate_eq] at hb
    have hout : TG.bulletOut W H b = false := by
      have := (List.mem_filter.mp hb).2
      simpa using this
    simp only [TG.bulletOut, Bool.or_eq_false_iff,
      decide_eq_false_iff_not, not_lt] at hout
    exact not_lt_of_ge hout.1.1.2
  · intro st bs hbs b hb
    cases h : st.boss with
    | none =>
      rw [P0.updateBullets] at hbs
      simp only [h] at hbs
      cases hbs
    | some bs0 =>
      rw [P0.updateBullets] at hbs
      simp only [h] at hbs
      rcases Option.some_injective _ hbs with rfl
      have hkeep := (List.mem_filter.mp hb).2
      simp only [P0.keepBossBullet, Bool.and_eq_true,
        decide_eq_true_eq] at hkeep
      exact hkeep.1
  · intro st
    cases h : st.boss with
    | none => simp [P0.updateBullets, h]
    | some bs0 => simp [P0.updateBullets, h]

def c7tgBullet : TG.Bullet :=
  { x := 100, y := 100, width := 12, height := 12, speed := 7
    type := .player, bulletType := 0, vx := 0, vy := 7 }

/-- Witness for C7's amended theorem: a surviving in-bounds bullet of the
scrolling variant's player pool is below the H + 10 line. -/
theorem C7_culling_amended_witness :
    ¬ ((TG.movePlayerBullet c7tgBullet).y > (480 : ℚ) + 10) :=
  (C7_culling_amended 400 480).2.1 [c7tgBullet] TG.movePlayerBullet _
    (by norm_num [jsReverseUpdate, jsReverseFilterMap, TG.movePlayerBullet,
      TG.bulletOut, c7tgBullet])

/-! ## C4: orphan transfer -/

theorem TG.moveEnemy_health_bullets (env : MathEnv) (now : ℚ)
    (e : TG.Enemy) :
    (TG.moveEnemy env now e).health = e.health ∧
    (TG.moveEnemy env now e).bullets = e.bullets := by
  unfold TG.moveEnemy
  dsimp only
  repeat' split
  all_goals exact ⟨rfl, rfl⟩

theorem TG.animEnemy_health_bullets (now : ℚ) (e : TG.Enemy) :
    (TG.animEnemy now e).health = e.health ∧
    (TG.animEnemy now e).bullets = e.bullets := by
  unfold TG.animEnemy
  split
  all_goals exact ⟨rfl, rfl⟩

theorem TG.shootEnemy_health_bullets (env : MathEnv) (now pcx pcy : ℚ)
    (rng : ℕ) (e : TG.Enemy) :
    ((TG.shootEnemy env now pcx pcy rng e).1).health = e.health ∧
    ∀ b ∈ e.bullets, b ∈ ((TG.shootEnemy env now pcx pcy rng e).1).bullets := by
  unfold TG.shootEnemy
  split
  · exact ⟨rfl, fun b hb => List.mem_append_left _ hb⟩
  · exact ⟨rfl, fun b hb => hb⟩

theorem TG.updateEnemiesAux_orphans_mono (env : MathEnv)
    (H now pcx pcy : ℚ) :
    ∀ (n : ℕ) (st : TG.State) (b : TG.Bullet), b ∈ st.orphanBullets →
      b ∈ (TG.updateEnemiesAux env H now pcx pcy n st).orphanBullets := by
  intro n
  induction n with
  | zero => intro st b hb; exact hb
  | succ i ih =>
    intro st b hb
    rw [TG.updateEnemiesAux]
    cases he : st.enemies[i]? with
    | none => exact ih st b hb
    | some e =>
      dsimp only
      apply ih
      split_ifs with h1 h2
      · exact List.mem_append_left _ hb
      · exact hb
      · exact hb

theorem TG.updateEnemiesAux_transfer (env : MathEnv) (H now pcx pcy : ℚ) :
    ∀ (n : ℕ) (st : TG.State) (i : ℕ) (e : TG.Enemy) (b : TG.Bullet),
      i < n → st.enemies[i]? = some e → e.health ≤ 0 → b ∈ e.bullets →
      b ∈ (TG.updateEnemiesAux env H now pcx pcy n st).orphanBullets := by
  intro n
  induction n with
  | zero => intro st i e b hi _ _ _; omega
  | succ k ih =>
    intro st i e b hi he hhp hbin
    rw [TG.updateEnemiesAux]
    rcases Nat.lt_succ_iff_lt_or_eq.mp hi with hik | rfl
    · cases hek : st.enemies[k]? with
      | none => exact ih st i e b hik he hhp hbin
      | some ek =>
        dsimp only
        apply ih _ i e b hik _ hhp hbin
        have hne : i ≠ k := Nat.ne_of_lt hik
        split_ifs with h1 h2
        · rw [List.getElem?_eraseIdx_of_lt _ _ _ hik,
            List.getElem?_set_ne hne.symm]
          exact he
        · rw [List.getElem?_eraseIdx_of_lt _ _ _ hik,
            List.getElem?_set_ne hne.symm]
          exact he
        · rw [List.getElem?_set_ne hne.symm]
          exact he
    · rw [he]
      dsimp only
      have hmv := TG.moveEnemy_health_bullets env now e
      have han := TG.animEnemy_health_bullets now (TG.moveEnemy env now e)
      have hsh := TG.shootEnemy_health_bullets env now pcx pcy st.rng
        (TG.animEnemy now (TG.moveEnemy env now e))
      have hh : ((TG.shootEnemy env now pcx pcy st.rng
          (TG.animEnemy now (TG.moveEnemy env now e))).1).health ≤ 0 := by
        rw [hsh.1, han.1, hmv.1]
        exact hhp
      rw [if_pos (Or.inr hh), if_pos hh]
      apply TG.updateEnemiesAux_orphans_mono
      apply List.mem_append_right
      exact hsh.2 b (by rw [han.2, hmv.2]; exact hbin)

/-- C4 — a fodder enemy removed with health ≤ 0 hands every bullet of its
in-flight pool, value-unchanged (the same bullet record, so position and
velocity are untouched), to the orphan pool in the same updateEnemies
pass; orphan bullets then move by the same integration step and hit the
player by the same circular radius test as the other hostile pools. -/
theorem C4_orphan_transfer :
    (∀ (env : MathEnv) (H now : ℚ) (st : TG.State) (e : TG.Enemy)
      (b : TG.Bullet), e ∈ st.enemies → e.health ≤ 0 → b ∈ e.bullets →
      b ∈ (TG.updateEnemies env H now st).orphanBullets) ∧
    (∀ b : TG.Bullet, TG.moveOrphanBullet b = TG.moveEnemyBullet b) ∧
    (∀ (env : MathEnv) (b : TG.Bullet) (pcx pcy : ℚ),
      TG.orphanBulletHitsPlayer env b pcx pcy
        = TG.enemyBulletHitsPlayer env b pcx pcy ∧
      TG.orphanBulletHitsPlayer env b pcx pcy
        = TG.bossBulletHitsPlayer env b pcx pcy) := by
  refine ⟨?_, fun b => rfl, fun env b pcx pcy => ⟨rfl, rfl⟩⟩
  intro env H now st e b hmem hhp hbin
  obtain ⟨i, hi, hie⟩ := List.getElem_of_mem hmem
  exact TG.updateEnemiesAux_transfer env H now _ _ st.enemies.length st i e b
    hi (by rw [List.getElem?_eq_getElem hi, hie]) hhp hbin

def c4Bullet : TG.Bullet :=
  { x := 50, y := 60, width := 12, height := 12, speed := 5/2
    type := .enemy, bulletType := 0, vx := 1, vy := 2 }

def c4Enemy : TG.Enemy :=
  { x := 40, y := 30, width := 44, height := 44, vx := 0, vy := 1
    health := 0, maxHealth := 5, bullets := [c4Bullet], lastShot := 0
    shootCooldown := 1200, fairyType := 0, currentFrame := 0
    animationSpeed := 150, lastFrameTime := 0, patternType := 0
    movementType := 0, spawnTime := 0 }

def c4State : TG.State :=
  { gameState :=
      { isRunning := true, isPaused := false, score := 0, lives := 5
        scrollY := 1000, maxScrollY := 2000, bossPhase := false
        nextExtend := 100000 }
    player :=
      { x := 270, y := 580, width := 60, height := 78, speed := 5
        bullets := [], lastShot := 0, shootCooldown := 80 }
    enemies := [c4Enemy], boss := none, particles := []
    orphanBullets := [], keys := ⟨false, false, false, false⟩
    isShootingHeld := false, isSlowHeld := false, enemySpawnTimer := 0
    rng := 0 }

/-- Witness for C4: the dead enemy's bullet lands in the orphan pool. -/
theorem C4_orphan_transfer_witness :
    c4Bullet ∈ (TG.updateEnemies envZero 700 0 c4State).orphanBullets :=
  C4_orphan_transfer.1 envZero 700 0 c4State c4Enemy c4Bullet
    (by simp [c4State]) (by norm_num [c4Enemy]) (by simp [c4Enemy])

/-! ## C1: invulnerability window -/

def c1tgEnemyA : TG.Enemy :=
  { x := 555/2, y := 2951/5, width := 44, height := 44, vx := 1/2
    vy := 4/5, health := 5, maxHealth := 5, bullets := []
    lastShot := -2000, shootCooldown := 1200, fairyType := 0
    currentFrame := 0, animationSpeed := 150, lastFrameTime := 0
    patternType := 0, movementType := 0, spawnTime := 0 }

def c1tgEnemyB : TG.Enemy :=
  { c1tgEnemyA with x := 277, y := 2947/5, lastShot := -1190 }

def c1tgState : TG.State :=
  { gameState :=
      { isRunning := true, isPaused := false, score := 0, lives := 5
        scrollY := 1920, maxScrollY := 1920, bossPhase := false
        nextExtend := 100000 }
    player :=
      { x := 270, y := 580, width := 60, height := 78, speed := 5
        bullets := [], lastShot := 0, shootCooldown := 80 }
    enemies := [c1tgEnemyA, c1tgEnemyB], boss := none, particles := []
    orphanBullets := [], keys := ⟨false, false, false, false⟩
    isShootingHeld := false, isSlowHeld := false, enemySpawnTimer := 0
    rng := 0 }

set_option maxHeartbeats 2000000 in
/-- C1 counterexample — touhou-game.ts has no invulnerability window at
all: two hostile-bullet hits 16 ms apart (one enemy fires into the player
center on each of two consecutive frames) cost two lives, not the one
life the claim demands for hits less than the iFrame window apart. -/
theorem C1_two_hits_one_life_counterexample :
    c1tgState.gameState.lives = 5 ∧
    (TG.update envZero 600 700 0 16 c1tgState).gameState.lives = 4 ∧
    (TG.update envZero 600 700 16 16
      (TG.update envZero 600 700 0 16 c1tgState)).gameState.lives = 3 ∧
    (16 : ℚ) - 0 < 1200 := by
  refine ⟨rfl, ?_, ?_, by norm_num⟩ <;>
  norm_num [TG.update, TG.updatePlayer, TG.playerShoot, TG.updateBullets,
    TG.updateEnemies, TG.updateEnemiesAux, TG.moveEnemy, TG.animEnemy,
    TG.shootEnemy, TG.enemyShoot, TG.updateParticles, TG.moveParticle,
    TG.updateScroll, TG.spawnEnemies, TG.spawnBoss, TG.checkCollisions,
    TG.collPlayerVsEnemies, TG.collPlayerVsEnemiesAux, TG.collPlayerVsBoss,
    TG.collEnemyBulletsVsPlayer, TG.collEnemyBulletsVsPlayerAux,
    TG.collOrphansVsPlayer, TG.collOrphansVsPlayerAux, TG.collBossVsPlayer,
    TG.playerHit, TG.clearFxList, TG.createBulletClearEffect,
    TG.enemyBulletHitsPlayer, TG.orphanBulletHitsPlayer,
    TG.bossBulletHitsPlayer, TG.playerHitboxRadius, TG.bulletOut,
    TG.movePlayerBullet, TG.moveEnemyBullet, TG.moveOrphanBullet,
    TG.moveBossBullet, jsReverseUpdate, jsReverseFilterMap, jsSplice1,
    jsIndexOf, envZero, c1tgState, c1tgEnemyA, c1tgEnemyB,
    List.findIdx?_cons, List.findIdx?_nil]
